import Mathlib

/-!
# QNNA driver (sw/c/qnna_demo.c): register protocol and bounded wait

A shallow embedding of the C driver.  Machine integers are natural numbers with
explicit reduction modulo 2^16, 2^32 or 2^64 where the C types truncate.  The
driver runs against an environment (the build flag, the system clock and the
device that drives STATUS); every primitive appends one event to a trace, so
the order and number of register accesses, clock readings and delays can be
read off the final state.  Progress printing is not modelled.
-/

namespace QNNA

/-! ## Register map and bit masks (lines 35-50) -/

def QNNA_CTRL : Nat := 0x000
def QNNA_STATUS : Nat := 0x004
def QNNA_DIM_M : Nat := 0x008
def QNNA_DIM_N : Nat := 0x00C
def QNNA_DIM_K : Nat := 0x010
def QNNA_KICK : Nat := 0x020

def STATUS_BUSY : Nat := 1 <<< 7
def STATUS_DONE : Nat := 1 <<< 8
def STATUS_ERROR : Nat := 1 <<< 15

def CTRL_RELU_EN : Nat := 1 <<< 0
def CTRL_IRQ_EN : Nat := 1 <<< 3

/-- Number of 32-bit words of the simulated register file, qnna_regs[256]. -/
def QNNA_REGS_WORDS : Nat := 256

def U16 : Nat := 2 ^ 16
def U32 : Nat := 2 ^ 32
def U64 : Nat := 2 ^ 64

/-! ## State -/

/-- One observable action of the driver. -/
inductive Event where
  | memset : Event
  | write (offset value : Nat) : Event
  | read (offset : Nat) : Event
  | get_time : Event
  | delay (ms : Nat) : Event
  deriving DecidableEq, Repr

/-- The register file, word index to stored word. -/
abbrev RegFile := Nat → Nat

/-- What the driver runs against.  The flag sim is the SIM_MODE build switch.
The oracle clock_gettime gives the timespec (tv_sec, tv_nsec) of
CLOCK_MONOTONIC as a function of the history so far.  The oracle device gives
the word a volatile read of STATUS returns, from the history so far and the
word last stored there; the identity on the stored word is a register file
that changes only through the writes of the driver. -/
structure Env where
  sim : Bool
  clock_gettime : List Event → Nat × Nat
  device : List Event → Nat → Nat

/-- Program state: the register words, the static counter of get_time_ms in
the hardware build, and the trace of actions performed so far. -/
structure World where
  regs : RegFile
  counter : Nat
  trace : List Event

/-- Number of STATUS reads in a trace. -/
def statusReads (t : List Event) : Nat :=
  t.count (Event.read QNNA_STATUS)

/-- Number of delay_ms calls in a trace. -/
def delayCalls : List Event → Nat
  | [] => 0
  | Event.delay _ :: t => delayCalls t + 1
  | _ :: t => delayCalls t

/-- Number of get_time_ms calls in a trace. -/
def clockCalls (t : List Event) : Nat :=
  t.count Event.get_time

/-- Total milliseconds requested from delay_ms in a trace. -/
def sleptMs : List Event → Nat
  | [] => 0
  | Event.delay ms :: t => sleptMs t + ms
  | _ :: t => sleptMs t

/-- The register writes of a trace, in order, as (offset, value). -/
def writesOf : List Event → List (Nat × Nat)
  | [] => []
  | Event.write o v :: t => (o, v) :: writesOf t
  | _ :: t => writesOf t

/-! ## Register access (lines 53-57) -/

/-- QNNA_WRITE_REG(offset, value): store into word offset >> 2, as uint32. -/
def QNNA_WRITE_REG (offset value : Nat) (w : World) : World :=
  { w with
    regs := Function.update w.regs (offset >>> 2) (value % U32)
    trace := w.trace ++ [Event.write offset value] }

/-- QNNA_READ_REG(offset): volatile load of word offset >> 2.  STATUS is the
device-driven word; every other word returns what was last stored. -/
def QNNA_READ_REG (env : Env) (offset : Nat) (w : World) : Nat × World :=
  let stored := w.regs (offset >>> 2)
  let v := if offset >>> 2 = QNNA_STATUS >>> 2 then env.device w.trace stored % U32 else stored
  (v, { w with trace := w.trace ++ [Event.read offset] })

/-! ## Time (lines 60-81) -/

/-- Elapsed time as computed in uint64: now - start modulo 2^64. -/
def elapsed_u64 (now start : Nat) : Nat :=
  (now % U64 + U64 - start % U64) % U64

def get_time_ms (env : Env) (w : World) : Nat × World :=
  if env.sim then
    let ts := env.clock_gettime w.trace
    ((ts.1 * 1000 + ts.2 / 1000000) % U64, { w with trace := w.trace ++ [Event.get_time] })
  else
    let c := (w.counter + 1) % U64
    (c, { w with counter := c, trace := w.trace ++ [Event.get_time] })

/-- Both builds only let time pass: usleep(ms * 1000) in SIM_MODE, a busy loop of
ms * 1000 steps otherwise.  Neither touches the registers or the counter; the
only call in the driver passes 100. -/
def delay_ms (ms : Nat) (w : World) : World :=
  { w with trace := w.trace ++ [Event.delay ms] }

/-! ## Driver functions (lines 84-154) -/

/-- The memset of qnna_init: all 256 words of the simulated file become 0. -/
def memset_regs (w : World) : World :=
  { w with
    regs := fun i => if i < QNNA_REGS_WORDS then 0 else w.regs i
    trace := w.trace ++ [Event.memset] }

def qnna_init (env : Env) (w : World) : World :=
  let w1 := if env.sim then memset_regs w else w
  QNNA_WRITE_REG QNNA_CTRL 0 w1

/-- The parameters m, n, k are uint16_t in C, so callers pass values below
2^16; each is stored as given, reduced to uint32 by the register write. -/
def qnna_configure (m n k : Nat) (relu_en : Bool) (w : World) : World :=
  let w1 := QNNA_WRITE_REG QNNA_DIM_M m w
  let w2 := QNNA_WRITE_REG QNNA_DIM_N n w1
  let w3 := QNNA_WRITE_REG QNNA_DIM_K k w2
  let ctrl := if relu_en then CTRL_RELU_EN else 0
  QNNA_WRITE_REG QNNA_CTRL ctrl w3

def qnna_start (w : World) : World :=
  QNNA_WRITE_REG QNNA_KICK 1 w

/-- The while loop of qnna_wait_for_completion.  Each unit of fuel pays for one
evaluation of the loop guard; none means the fuel ran out. -/
def wait_loop (env : Env) (start_time timeout_ms : Nat) : Nat → World → Option (Bool × World)
  | 0, _ => none
  | fuel + 1, w =>
    let t := get_time_ms env w
    if elapsed_u64 t.1 start_time < timeout_ms then
      let r := QNNA_READ_REG env QNNA_STATUS t.2
      let status := r.1
      if status &&& STATUS_DONE ≠ 0 then
        some (true, r.2)
      else if status &&& STATUS_ERROR ≠ 0 then
        some (false, r.2)
      else
        wait_loop env start_time timeout_ms fuel (delay_ms 100 r.2)
    else
      some (false, t.2)

def qnna_wait_for_completion (env : Env) (timeout_ms fuel : Nat) (w : World) :
    Option (Bool × World) :=
  let t := get_time_ms env w
  let start_time := t.1
  wait_loop env start_time timeout_ms fuel t.2

def qnna_get_status (env : Env) (w : World) : Nat × World :=
  QNNA_READ_REG env QNNA_STATUS w

def qnna_read_dimensions (env : Env) (w : World) : (Nat × Nat × Nat) × World :=
  let rm := QNNA_READ_REG env QNNA_DIM_M w
  let rn := QNNA_READ_REG env QNNA_DIM_N rm.2
  let rk := QNNA_READ_REG env QNNA_DIM_K rn.2
  ((rm.1 % U16, rn.1 % U16, rk.1 % U16), rk.2)

/-! ## Vocabulary for statements about the polling loop -/

/-- The loop guard as evaluated in state w: one clock reading compared with
start_time. -/
abbrev guard_at (env : Env) (start_time timeout_ms : Nat) (w : World) : Prop :=
  elapsed_u64 (get_time_ms env w).1 start_time < timeout_ms

/-- The STATUS word read by the loop iteration that starts in state w. -/
def status_at (env : Env) (w : World) : Nat :=
  (QNNA_READ_REG env QNNA_STATUS (get_time_ms env w).2).1

/-- The state in which a loop iteration that starts in w returns after its
STATUS read. -/
def after_read (env : Env) (w : World) : World :=
  (QNNA_READ_REG env QNNA_STATUS (get_time_ms env w).2).2

/-- One iteration that neither returns nor leaves the loop: clock reading,
STATUS read, delay_ms(100). -/
def poll_step (env : Env) (w : World) : World :=
  delay_ms 100 (after_read env w)

/-- The start time recorded by qnna_wait_for_completion called in state w. -/
def start_of (env : Env) (w : World) : Nat :=
  (get_time_ms env w).1

/-- The state in which the loop of qnna_wait_for_completion is first reached. -/
def loop_entry (env : Env) (w : World) : World :=
  (get_time_ms env w).2

/-- The polling loop is entered: the first guard evaluation succeeds. -/
abbrev loop_entered (env : Env) (timeout_ms : Nat) (w : World) : Prop :=
  guard_at env (start_of env w) timeout_ms (loop_entry env w)

/-- The STATUS word of the first read of qnna_wait_for_completion. -/
def first_status (env : Env) (w : World) : Nat :=
  status_at env (loop_entry env w)

/-- The first k loop iterations starting in w all pass the guard and read a
STATUS word with neither DONE nor ERROR set. -/
def idle_polls (env : Env) (start_time timeout_ms : Nat) (w : World) (k : Nat) : Prop :=
  ∀ j, j < k →
    guard_at env start_time timeout_ms ((poll_step env)^[j] w) ∧
    (status_at env ((poll_step env)^[j] w)).testBit 8 = false ∧
    (status_at env ((poll_step env)^[j] w)).testBit 15 = false

instance (env : Env) (start_time timeout_ms : Nat) (w : World) (k : Nat) :
    Decidable (idle_polls env start_time timeout_ms w k) := by
  unfold idle_polls
  exact inferInstance

/-- The STATUS word that read number j (counted from 0) of a wait called in
state w returns, the reads before it having been idle. -/
def status_seq (env : Env) (w : World) (j : Nat) : Nat :=
  status_at env ((poll_step env)^[j] (loop_entry env w))

/-- How a loop iteration starting in state v ends the wait with result r: DONE
read, ERROR read with DONE clear, or guard failed. -/
def ends_at (env : Env) (s T : Nat) (v : World) (r : Bool × World) : Prop :=
  (guard_at env s T v ∧ (status_at env v).testBit 8 = true ∧ r = (true, after_read env v)) ∨
  (guard_at env s T v ∧ (status_at env v).testBit 8 = false ∧
    (status_at env v).testBit 15 = true ∧ r = (false, after_read env v)) ∨
  (¬ guard_at env s T v ∧ r = (false, (get_time_ms env v).2))

/-! ## Environments -/

/-- The clock that advances by exactly the slept duration and by nothing else,
started at t0 milliseconds. -/
def idealClock (t0 : Nat) : List Event → Nat × Nat :=
  fun tr => ((t0 + sleptMs tr) / 1000, (t0 + sleptMs tr) % 1000 * 1000000)

/-- A device that never touches STATUS: reads return the stored word. -/
def quietDevice : List Event → Nat → Nat :=
  fun _ stored => stored

/-- A device that answers the i-th STATUS read of the run with st i. -/
def streamDevice (st : Nat → Nat) : List Event → Nat → Nat :=
  fun tr _ => st (statusReads tr)

/-- The SIM_MODE build under the ideal clock with a scripted STATUS stream. -/
def simEnv (t0 : Nat) (st : Nat → Nat) : Env :=
  { sim := true, clock_gettime := idealClock t0, device := streamDevice st }

/-- The SIM_MODE build as compiled: nothing but the driver writes registers. -/
def simQuiet (t0 : Nat) : Env :=
  { sim := true, clock_gettime := idealClock t0, device := quietDevice }

/-- The hardware build: counter clock, scripted STATUS stream. -/
def hwEnv (st : Nat → Nat) : Env :=
  { sim := false, clock_gettime := fun _ => (0, 0), device := streamDevice st }

/-- A register file holding v in every word, nothing done yet. -/
def constWorld (v : Nat) : World :=
  { regs := fun _ => v, counter := 0, trace := [] }

/-- A zeroed register file with the static counter of get_time_ms at c. -/
def counterWorld (c : Nat) : World :=
  { regs := fun _ => 0, counter := c, trace := [] }

/-- The byte offsets of the register accesses (reads and writes) of a trace, in
order. -/
def accessOffsets : List Event → List Nat
  | [] => []
  | Event.write o _ :: t => o :: accessOffsets t
  | Event.read o :: t => o :: accessOffsets t
  | _ :: t => accessOffsets t

/-- An access at this byte offset is word aligned and its word index,
offset >> 2, lies inside qnna_regs[256]. -/
abbrev in_bounds (offset : Nat) : Prop :=
  offset % 4 = 0 ∧ offset >>> 2 < QNNA_REGS_WORDS

/-- Every register access recorded in the trace is in bounds. -/
def trace_in_bounds (t : List Event) : Prop :=
  ∀ o, o ∈ accessOffsets t → in_bounds o

/-! ## The deadline test in the words of the specification -/

/-- Specification, step 1 of the wait policy: deadline = now_ms() + timeout. -/
def spec_deadline (start timeout_ms : Nat) : Nat :=
  start + timeout_ms

/-- Specification, step 2 of the wait policy: loop while now_ms() < deadline. -/
abbrev spec_loop_guard (now deadline : Nat) : Prop :=
  now < deadline

/-! ## Test functions (lines 157-281) -/

def test_relu (env : Env) (w : World) : Bool × World :=
  let w1 := qnna_init env w
  let w2 := qnna_configure 4 4 4 true w1
  let ctrl := QNNA_READ_REG env QNNA_CTRL w2
  (decide (ctrl.1 &&& CTRL_RELU_EN ≠ 0), ctrl.2)

theorem get_time_ms_regs (env : Env) (w : World) : (get_time_ms env w).2.regs = w.regs := by
  unfold get_time_ms; split <;> rfl

theorem get_time_ms_trace (env : Env) (w : World) :
    (get_time_ms env w).2.trace = w.trace ++ [Event.get_time] := by
  unfold get_time_ms; split <;> rfl

theorem and_two_pow_ne_zero (x i : Nat) : x &&& 2 ^ i ≠ 0 ↔ x.testBit i = true := by
  rw [Nat.and_two_pow]
  cases h : x.testBit i <;> simp [Nat.pos_iff_ne_zero]

theorem done_iff (x : Nat) : x &&& STATUS_DONE ≠ 0 ↔ x.testBit 8 = true := by
  have h : STATUS_DONE = 2 ^ 8 := by decide
  rw [h]; exact and_two_pow_ne_zero x 8

theorem error_iff (x : Nat) : x &&& STATUS_ERROR ≠ 0 ↔ x.testBit 15 = true := by
  have h : STATUS_ERROR = 2 ^ 15 := by decide
  rw [h]; exact and_two_pow_ne_zero x 15

theorem ctrl_idx : QNNA_CTRL >>> 2 = 0 := by decide

theorem status_idx : QNNA_STATUS >>> 2 = 1 := by decide

theorem dim_m_idx : QNNA_DIM_M >>> 2 = 2 := by decide

theorem dim_n_idx : QNNA_DIM_N >>> 2 = 3 := by decide

theorem dim_k_idx : QNNA_DIM_K >>> 2 = 4 := by decide

theorem kick_idx : QNNA_KICK >>> 2 = 8 := by decide

theorem read_plain (env : Env) (offset : Nat) (w : World) (h : offset >>> 2 ≠ 1) :
    (QNNA_READ_REG env offset w).1 = w.regs (offset >>> 2) := by
  simp [QNNA_READ_REG, status_idx, h]

theorem read_regs (env : Env) (offset : Nat) (w : World) :
    (QNNA_READ_REG env offset w).2.regs = w.regs := rfl

theorem configure_regs (m n k : Nat) (relu_en : Bool) (w : World) :
    (qnna_configure m n k relu_en w).regs =
      Function.update (Function.update (Function.update (Function.update w.regs 2 (m % U32))
        3 (n % U32)) 4 (k % U32)) 0 ((if relu_en then CTRL_RELU_EN else 0) % U32) := by
  simp [qnna_configure, QNNA_WRITE_REG, ctrl_idx, dim_m_idx, dim_n_idx, dim_k_idx]

theorem init_regs (env : Env) (w : World) :
    (qnna_init env w).regs =
      fun i => if i = 0 then 0 else if env.sim = true ∧ i < 256 then 0 else w.regs i := by
  funext i
  unfold qnna_init
  cases hs : env.sim <;>
    by_cases hi : i = 0 <;>
    simp [QNNA_WRITE_REG, memset_regs, ctrl_idx, Function.update, QNNA_REGS_WORDS, U32, hi]

theorem init_regs_idem (env : Env) (w v : World) (h : v.regs = (qnna_init env w).regs) :
    (qnna_init env v).regs = (qnna_init env w).regs := by
  rw [init_regs env v, h, init_regs env w]
  funext i
  by_cases hi : i = 0
  · simp [hi]
  · by_cases hc : env.sim = true ∧ i < 256 <;> simp [hi, hc]

/-! ## The four ways one loop iteration can go -/

theorem wait_loop_timeout (env : Env) (s T fuel : Nat) (w : World)
    (hg : ¬ guard_at env s T w) :
    wait_loop env s T (fuel + 1) w = some (false, (get_time_ms env w).2) := by
  simp only [wait_loop]
  rw [if_neg hg]

theorem wait_loop_done (env : Env) (s T fuel : Nat) (w : World)
    (hg : guard_at env s T w) (hd : (status_at env w).testBit 8 = true) :
    wait_loop env s T (fuel + 1) w = some (true, after_read env w) := by
  have h1 := (done_iff (status_at env w)).2 hd
  unfold status_at at h1
  simp only [wait_loop]
  rw [if_pos hg, if_pos h1]
  rfl

theorem wait_loop_error (env : Env) (s T fuel : Nat) (w : World)
    (hg : guard_at env s T w) (hd : (status_at env w).testBit 8 = false)
    (he : (status_at env w).testBit 15 = true) :
    wait_loop env s T (fuel + 1) w = some (false, after_read env w) := by
  have hnd : ¬ (status_at env w &&& STATUS_DONE ≠ 0) := by
    rw [done_iff, hd]; simp
  have h2 := (error_iff (status_at env w)).2 he
  unfold status_at at hnd h2
  simp only [wait_loop]
  rw [if_pos hg, if_neg hnd, if_pos h2]
  rfl

theorem wait_loop_idle (env : Env) (s T fuel : Nat) (w : World)
    (hg : guard_at env s T w) (hd : (status_at env w).testBit 8 = false)
    (he : (status_at env w).testBit 15 = false) :
    wait_loop env s T (fuel + 1) w = wait_loop env s T fuel (poll_step env w) := by
  have hnd : ¬ (status_at env w &&& STATUS_DONE ≠ 0) := by
    rw [done_iff, hd]; simp
  have hne : ¬ (status_at env w &&& STATUS_ERROR ≠ 0) := by
    rw [error_iff, he]; simp
  unfold status_at at hnd hne
  simp only [wait_loop]
  rw [if_pos hg, if_neg hnd, if_neg hne]
  rfl

theorem wait_loop_idle_iter (env : Env) (s T : Nat) :
    ∀ (k fuel : Nat) (w : World), idle_polls env s T w k →
      wait_loop env s T (fuel + k) w = wait_loop env s T fuel ((poll_step env)^[k] w) := by
  intro k
  induction k with
  | zero => intro fuel w _; rfl
  | succ k ih =>
    intro fuel w h
    obtain ⟨hg, hd, he⟩ := h 0 (Nat.succ_pos k)
    have hstep : wait_loop env s T (fuel + k + 1) w
        = wait_loop env s T (fuel + k) (poll_step env w) :=
      wait_loop_idle env s T (fuel + k) w hg hd he
    have hrest : idle_polls env s T (poll_step env w) k := by
      intro j hj
      have := h (j + 1) (Nat.succ_lt_succ hj)
      simpa [Function.iterate_succ_apply] using this
    rw [← Nat.add_assoc, hstep, ih fuel (poll_step env w) hrest, Function.iterate_succ_apply]

/-! ## Traces and iterated polling -/

theorem statusReads_append (a b : List Event) :
    statusReads (a ++ b) = statusReads a + statusReads b := by
  simp [statusReads]

theorem delayCalls_append (a b : List Event) :
    delayCalls (a ++ b) = delayCalls a + delayCalls b := by
  induction a with
  | nil => simp [delayCalls]
  | cons e a ih =>
    cases e <;> simp [delayCalls, ih]
    omega

theorem sleptMs_append (a b : List Event) :
    sleptMs (a ++ b) = sleptMs a + sleptMs b := by
  induction a with
  | nil => simp [sleptMs]
  | cons e a ih =>
    cases e <;> simp [sleptMs, ih]
    omega

theorem writesOf_append (a b : List Event) :
    writesOf (a ++ b) = writesOf a ++ writesOf b := by
  induction a with
  | nil => simp [writesOf]
  | cons e a ih => cases e <;> simp [writesOf, ih]

theorem after_read_trace (env : Env) (w : World) :
    (after_read env w).trace = w.trace ++ [Event.get_time, Event.read QNNA_STATUS] := by
  simp [after_read, QNNA_READ_REG, get_time_ms_trace]

theorem after_read_regs (env : Env) (w : World) : (after_read env w).regs = w.regs := by
  simp [after_read, QNNA_READ_REG, get_time_ms_regs]

theorem poll_step_trace (env : Env) (w : World) :
    (poll_step env w).trace
      = w.trace ++ [Event.get_time, Event.read QNNA_STATUS, Event.delay 100] := by
  simp [poll_step, delay_ms, after_read_trace]

theorem poll_step_regs (env : Env) (w : World) : (poll_step env w).regs = w.regs := by
  simp [poll_step, delay_ms, after_read_regs]

theorem status_at_eq (env : Env) (w : World) :
    status_at env w = env.device (w.trace ++ [Event.get_time]) (w.regs 1) % U32 := by
  simp [status_at, QNNA_READ_REG, get_time_ms_trace, get_time_ms_regs, status_idx]

theorem ideal_reading (env : Env) (t0 : Nat) (w : World) (hsim : env.sim = true)
    (hclk : env.clock_gettime = idealClock t0) :
    (get_time_ms env w).1 = (t0 + sleptMs w.trace) % U64 := by
  unfold get_time_ms
  rw [if_pos hsim, hclk]
  simp only [idealClock]
  congr 1
  omega

theorem testBit_mod_U32 (x i : Nat) (hi : i < 32) : (x % U32).testBit i = x.testBit i := by
  have h : U32 = 2 ^ 32 := rfl
  rw [h, Nat.testBit_mod_two_pow]; simp [hi]

theorem poll_iter_regs (env : Env) (w : World) (j : Nat) :
    ((poll_step env)^[j] w).regs = w.regs := by
  induction j with
  | zero => rfl
  | succ j ih => rw [Function.iterate_succ_apply', poll_step_regs, ih]

theorem poll_iter_counter_sim (env : Env) (w : World) (j : Nat) (hsim : env.sim = true) :
    ((poll_step env)^[j] w).counter = w.counter := by
  induction j with
  | zero => rfl
  | succ j ih =>
    rw [Function.iterate_succ_apply', ← ih]
    simp [poll_step, delay_ms, after_read, QNNA_READ_REG, get_time_ms, hsim]

theorem poll_iter_statusReads (env : Env) (w : World) (j : Nat) :
    statusReads ((poll_step env)^[j] w).trace = statusReads w.trace + j := by
  induction j with
  | zero => rfl
  | succ j ih =>
    rw [Function.iterate_succ_apply', poll_step_trace, statusReads_append, ih]
    simp [statusReads]
    omega

theorem poll_iter_delayCalls (env : Env) (w : World) (j : Nat) :
    delayCalls ((poll_step env)^[j] w).trace = delayCalls w.trace + j := by
  induction j with
  | zero => rfl
  | succ j ih =>
    rw [Function.iterate_succ_apply', poll_step_trace, delayCalls_append, ih]
    simp [delayCalls]
    omega

theorem poll_iter_sleptMs (env : Env) (w : World) (j : Nat) :
    sleptMs ((poll_step env)^[j] w).trace = sleptMs w.trace + 100 * j := by
  induction j with
  | zero => rfl
  | succ j ih =>
    rw [Function.iterate_succ_apply', poll_step_trace, sleptMs_append, ih]
    simp [sleptMs]
    omega

theorem poll_iter_writesOf (env : Env) (w : World) (j : Nat) :
    writesOf ((poll_step env)^[j] w).trace = writesOf w.trace := by
  induction j with
  | zero => rfl
  | succ j ih =>
    rw [Function.iterate_succ_apply', poll_step_trace, writesOf_append, ih]
    simp [writesOf]

/-- Under the ideal clock the guard of iteration j compares 100 j with the
timeout. -/
theorem ideal_guard_iff (env : Env) (t0 T j : Nat) (w : World) (hsim : env.sim = true)
    (hclk : env.clock_gettime = idealClock t0) (hj : 100 * j < U64) :
    guard_at env (start_of env w) T ((poll_step env)^[j] (loop_entry env w)) ↔ 100 * j < T := by
  have hs : sleptMs (loop_entry env w).trace = sleptMs w.trace := by
    simp [loop_entry, get_time_ms_trace, sleptMs_append, sleptMs]
  unfold guard_at start_of
  rw [ideal_reading env t0 _ hsim hclk, ideal_reading env t0 w hsim hclk, poll_iter_sleptMs, hs]
  unfold elapsed_u64
  have h64 : U64 = 18446744073709551616 := by decide
  rw [h64] at hj ⊢
  omega

/-- Under the ideal clock, against a device that never shows DONE or ERROR,
the wait polls ceil(T/100) times and then times out. -/
theorem wait_ideal_never_terminal (env : Env) (t0 T fuel : Nat) (w : World)
    (hsim : env.sim = true) (hclk : env.clock_gettime = idealClock t0) (hT : T < U32)
    (hdev : ∀ tr v, (env.device tr v).testBit 8 = false ∧ (env.device tr v).testBit 15 = false) :
    qnna_wait_for_completion env T (fuel + 1 + (T + 99) / 100) w
      = some (false, (get_time_ms env ((poll_step env)^[(T + 99) / 100] (loop_entry env w))).2) := by
  have h32 : U32 = 4294967296 := by decide
  have h64 : U64 = 18446744073709551616 := by decide
  rw [h32] at hT
  have hidle : idle_polls env (start_of env w) T (loop_entry env w) ((T + 99) / 100) := by
    intro j hj
    refine ⟨?_, ?_, ?_⟩
    · rw [ideal_guard_iff env t0 T j w hsim hclk (by rw [h64]; omega)]
      omega
    · rw [status_at_eq, testBit_mod_U32 _ _ (by decide)]
      exact (hdev _ _).1
    · rw [status_at_eq, testBit_mod_U32 _ _ (by decide)]
      exact (hdev _ _).2
  have hrun : qnna_wait_for_completion env T (fuel + 1 + (T + 99) / 100) w
      = wait_loop env (start_of env w) T (fuel + 1)
          ((poll_step env)^[(T + 99) / 100] (loop_entry env w)) :=
    wait_loop_idle_iter env (start_of env w) T ((T + 99) / 100) (fuel + 1) (loop_entry env w) hidle
  rw [hrun]
  apply wait_loop_timeout
  rw [ideal_guard_iff env t0 T _ w hsim hclk (by rw [h64]; omega)]
  omega

/-! ## The shape of every result of the loop -/

theorem idle_polls_succ (env : Env) (s T : Nat) (w : World) (k : Nat)
    (hg : guard_at env s T w) (hd : (status_at env w).testBit 8 = false)
    (he : (status_at env w).testBit 15 = false)
    (hrest : idle_polls env s T (poll_step env w) k) :
    idle_polls env s T w (k + 1) := by
  intro j hj
  cases j with
  | zero => exact ⟨hg, hd, he⟩
  | succ j =>
    have := hrest j (by omega)
    simpa [Function.iterate_succ_apply] using this

theorem wait_loop_cases (env : Env) (s T : Nat) :
    ∀ (fuel : Nat) (w : World) (r : Bool × World), wait_loop env s T fuel w = some r →
      ∃ j, j < fuel ∧ idle_polls env s T w j ∧ ends_at env s T ((poll_step env)^[j] w) r := by
  intro fuel
  induction fuel with
  | zero => intro w r h; simp [wait_loop] at h
  | succ fuel ih =>
    intro w r h
    by_cases hg : guard_at env s T w
    · cases hd : (status_at env w).testBit 8
      · cases he : (status_at env w).testBit 15
        · rw [wait_loop_idle env s T fuel w hg hd he] at h
          obtain ⟨j, hj, hidle, hend⟩ := ih (poll_step env w) r h
          refine ⟨j + 1, by omega, idle_polls_succ env s T w j hg hd he hidle, ?_⟩
          rw [Function.iterate_succ_apply]
          exact hend
        · rw [wait_loop_error env s T fuel w hg hd he] at h
          refine ⟨0, by omega, fun j hj => absurd hj (Nat.not_lt_zero j), ?_⟩
          exact Or.inr (Or.inl ⟨hg, hd, he, (Option.some.inj h).symm⟩)
      · rw [wait_loop_done env s T fuel w hg hd] at h
        refine ⟨0, by omega, fun j hj => absurd hj (Nat.not_lt_zero j), ?_⟩
        exact Or.inl ⟨hg, hd, (Option.some.inj h).symm⟩
    · rw [wait_loop_timeout env s T fuel w hg] at h
      refine ⟨0, by omega, fun j hj => absurd hj (Nat.not_lt_zero j), ?_⟩
      exact Or.inr (Or.inr ⟨hg, (Option.some.inj h).symm⟩)

/-- If the guard fails at iteration n at the latest, fuel for n + 1 guard
evaluations is enough for the loop to return. -/
theorem wait_loop_returns (env : Env) (s T : Nat) :
    ∀ (n fuel : Nat) (w : World), ¬ guard_at env s T ((poll_step env)^[n] w) →
      ∃ r, wait_loop env s T (fuel + 1 + n) w = some r := by
  intro n
  induction n with
  | zero =>
    intro fuel w hstop
    exact ⟨_, wait_loop_timeout env s T fuel w hstop⟩
  | succ n ih =>
    intro fuel w hstop
    by_cases hg : guard_at env s T w
    · cases hd : (status_at env w).testBit 8
      · cases he : (status_at env w).testBit 15
        · rw [← Nat.add_assoc, wait_loop_idle env s T (fuel + 1 + n) w hg hd he]
          exact ih fuel (poll_step env w) (by rwa [Function.iterate_succ_apply] at hstop)
        · exact ⟨_, wait_loop_error env s T (fuel + 1 + n) w hg hd he⟩
      · exact ⟨_, wait_loop_done env s T (fuel + 1 + n) w hg hd⟩
    · exact ⟨_, wait_loop_timeout env s T (fuel + 1 + n) w hg⟩

/-! ## Frame of the wait: registers, writes and accessed offsets -/

theorem accessOffsets_append (a b : List Event) :
    accessOffsets (a ++ b) = accessOffsets a ++ accessOffsets b := by
  induction a with
  | nil => simp [accessOffsets]
  | cons e a ih => cases e <;> simp [accessOffsets, ih]

theorem poll_iter_accessOffsets (env : Env) (w : World) (j : Nat) :
    accessOffsets ((poll_step env)^[j] w).trace
      = accessOffsets w.trace ++ List.replicate j QNNA_STATUS := by
  induction j with
  | zero => simp
  | succ j ih =>
    rw [Function.iterate_succ_apply', poll_step_trace, accessOffsets_append, ih,
      List.replicate_succ']
    simp [accessOffsets]

theorem loop_entry_regs (env : Env) (w : World) : (loop_entry env w).regs = w.regs :=
  get_time_ms_regs env w

theorem loop_entry_trace (env : Env) (w : World) :
    (loop_entry env w).trace = w.trace ++ [Event.get_time] :=
  get_time_ms_trace env w

theorem ends_at_frame (env : Env) (s T : Nat) (v : World) (r : Bool × World)
    (h : ends_at env s T v r) :
    r.2.regs = v.regs ∧ writesOf r.2.trace = writesOf v.trace ∧
    (accessOffsets r.2.trace = accessOffsets v.trace ++ [QNNA_STATUS] ∨
      accessOffsets r.2.trace = accessOffsets v.trace) := by
  rcases h with ⟨_, _, rfl⟩ | ⟨_, _, _, rfl⟩ | ⟨_, rfl⟩
  · refine ⟨after_read_regs env v, ?_, Or.inl ?_⟩
    · simp [after_read_trace, writesOf_append, writesOf]
    · simp [after_read_trace, accessOffsets_append, accessOffsets]
  · refine ⟨after_read_regs env v, ?_, Or.inl ?_⟩
    · simp [after_read_trace, writesOf_append, writesOf]
    · simp [after_read_trace, accessOffsets_append, accessOffsets]
  · refine ⟨get_time_ms_regs env v, ?_, Or.inr ?_⟩
    · simp [get_time_ms_trace, writesOf_append, writesOf]
    · simp [get_time_ms_trace, accessOffsets_append, accessOffsets]

/-- Whatever the wait returns, it wrote no register and accessed only STATUS. -/
theorem wait_frame (env : Env) (T fuel : Nat) (w : World) (r : Bool × World)
    (h : qnna_wait_for_completion env T fuel w = some r) :
    r.2.regs = w.regs ∧ writesOf r.2.trace = writesOf w.trace ∧
    ∃ n, accessOffsets r.2.trace = accessOffsets w.trace ++ List.replicate n QNNA_STATUS := by
  obtain ⟨j, _, _, hend⟩ := wait_loop_cases env (start_of env w) T fuel (loop_entry env w) r h
  obtain ⟨hregs, hwr, hacc⟩ := ends_at_frame env _ T _ r hend
  have hacc0 : accessOffsets ((poll_step env)^[j] (loop_entry env w)).trace
      = accessOffsets w.trace ++ List.replicate j QNNA_STATUS := by
    rw [poll_iter_accessOffsets, loop_entry_trace, accessOffsets_append]
    simp [accessOffsets]
  refine ⟨?_, ?_, ?_⟩
  · rw [hregs, poll_iter_regs, loop_entry_regs]
  · rw [hwr, poll_iter_writesOf, loop_entry_trace, writesOf_append]
    simp [writesOf]
  · rcases hacc with h1 | h1
    · refine ⟨j + 1, ?_⟩
      rw [h1, hacc0, List.replicate_succ', List.append_assoc]
    · exact ⟨j, by rw [h1, hacc0]⟩

/-! ## The counter clock of the hardware build -/

theorem hw_reading (env : Env) (w : World) (hhw : env.sim = false) :
    (get_time_ms env w).1 = (w.counter + 1) % U64 ∧
    (get_time_ms env w).2.counter = (w.counter + 1) % U64 := by
  unfold get_time_ms
  simp [hhw]

theorem hw_poll_step_counter (env : Env) (w : World) (hhw : env.sim = false) :
    (poll_step env w).counter = (w.counter + 1) % U64 := by
  have := (hw_reading env w hhw).2
  simpa [poll_step, delay_ms, after_read, QNNA_READ_REG] using this

theorem hw_poll_iter_counter (env : Env) (w : World) (j : Nat) (hhw : env.sim = false) :
    ((poll_step env)^[j] (loop_entry env w)).counter = (w.counter + 1 + j) % U64 := by
  induction j with
  | zero => exact (hw_reading env w hhw).2
  | succ j ih =>
    rw [Function.iterate_succ_apply', hw_poll_step_counter env _ hhw, ih]
    have h64 : U64 = 18446744073709551616 := by decide
    rw [h64]
    omega

/-- In the hardware build the guard of iteration j compares j + 1 with the
timeout, whatever the counter held at the call. -/
theorem hw_guard_iff (env : Env) (T j : Nat) (w : World) (hhw : env.sim = false)
    (hj : j + 1 < U64) :
    guard_at env (start_of env w) T ((poll_step env)^[j] (loop_entry env w)) ↔ j + 1 < T := by
  unfold guard_at start_of
  rw [(hw_reading env _ hhw).1, (hw_reading env w hhw).1, hw_poll_iter_counter env w j hhw]
  unfold elapsed_u64
  have h64 : U64 = 18446744073709551616 := by decide
  rw [h64] at hj ⊢
  omega

theorem status_seq_eq (env : Env) (w : World) (j : Nat) :
    status_seq env w j
      = env.device (((poll_step env)^[j] (loop_entry env w)).trace ++ [Event.get_time])
          (w.regs 1) % U32 := by
  unfold status_seq
  rw [status_at_eq, poll_iter_regs, loop_entry_regs]

/-- Against a scripted stream the reads of a wait return consecutive stream
elements, starting where the earlier STATUS reads of the run stopped. -/
theorem status_seq_stream (env : Env) (st : Nat → Nat) (w : World) (j : Nat)
    (hdev : env.device = streamDevice st) :
    status_seq env w j = st (statusReads w.trace + j) % U32 := by
  rw [status_seq_eq, hdev]
  simp only [streamDevice]
  rw [statusReads_append, poll_iter_statusReads, loop_entry_trace, statusReads_append]
  simp [statusReads]

/-! ## Hardware build: the timeout is a step budget -/

theorem hw_idle_bound (env : Env) (T j : Nat) (w : World) (hhw : env.sim = false)
    (hT : T < U32) (hidle : idle_polls env (start_of env w) T (loop_entry env w) j) :
    j ≤ T - 1 := by
  have h32 : U32 = 4294967296 := by decide
  have h64 : U64 = 18446744073709551616 := by decide
  rw [h32] at hT
  by_contra hcon
  have hg := (hidle (T - 1) (by omega)).1
  rw [hw_guard_iff env T (T - 1) w hhw (by rw [h64]; omega)] at hg
  omega

theorem hw_idle_of_nonterminal (env : Env) (T j : Nat) (w : World) (hhw : env.sim = false)
    (hT : T < U32) (hj : j ≤ T - 1)
    (hnt : ∀ i, i < j → (status_seq env w i).testBit 8 = false ∧
      (status_seq env w i).testBit 15 = false) :
    idle_polls env (start_of env w) T (loop_entry env w) j := by
  have h32 : U32 = 4294967296 := by decide
  have h64 : U64 = 18446744073709551616 := by decide
  rw [h32] at hT
  intro i hi
  refine ⟨?_, (hnt i hi).1, (hnt i hi).2⟩
  rw [hw_guard_iff env T i w hhw (by rw [h64]; omega)]
  omega

/-- Hardware build, fuel for T + 1 guard evaluations: the wait returns, and it
returns true exactly when some read j with j + 1 < T shows DONE after idle
reads only. -/
theorem hw_wait_result (env : Env) (T fuel : Nat) (w : World) (hhw : env.sim = false)
    (hT : T < U32) :
    ∃ r, qnna_wait_for_completion env T (fuel + 1 + T) w = some r ∧
      (r.1 = true ↔ ∃ j, j + 1 < T ∧ (status_seq env w j).testBit 8 = true ∧
        ∀ i, i < j → (status_seq env w i).testBit 8 = false ∧
          (status_seq env w i).testBit 15 = false) := by
  have h32 : U32 = 4294967296 := by decide
  have h64 : U64 = 18446744073709551616 := by decide
  have hT' : T < 4294967296 := by rw [h32] at hT; exact hT
  have hstop : ¬ guard_at env (start_of env w) T ((poll_step env)^[T - 1] (loop_entry env w)) := by
    rw [hw_guard_iff env T (T - 1) w hhw (by rw [h64]; omega)]
    omega
  have hfuel : fuel + 1 + T = (fuel + (T - (T - 1))) + 1 + (T - 1) := by omega
  obtain ⟨r, hr⟩ : ∃ r, qnna_wait_for_completion env T (fuel + 1 + T) w = some r := by
    rw [hfuel]
    exact wait_loop_returns env (start_of env w) T (T - 1) _ (loop_entry env w) hstop
  refine ⟨r, hr, ?_, ?_⟩
  · intro htrue
    obtain ⟨j, _, hidle, hend⟩ :=
      wait_loop_cases env (start_of env w) T _ (loop_entry env w) r hr
    have hjb := hw_idle_bound env T j w hhw hT hidle
    rcases hend with ⟨hg, hd, _⟩ | ⟨_, _, _, rfl⟩ | ⟨_, rfl⟩
    · rw [hw_guard_iff env T j w hhw (by rw [h64]; omega)] at hg
      exact ⟨j, hg, hd, fun i hi => (hidle i hi).2⟩
    · simp at htrue
    · simp at htrue
  · rintro ⟨j, hj, hd, hnt⟩
    have hidle := hw_idle_of_nonterminal env T j w hhw hT (by omega) hnt
    have hg : guard_at env (start_of env w) T ((poll_step env)^[j] (loop_entry env w)) := by
      rw [hw_guard_iff env T j w hhw (by rw [h64]; omega)]
      exact hj
    have hrun : qnna_wait_for_completion env T (fuel + (T - j) + 1 + j) w
        = some (true, after_read env ((poll_step env)^[j] (loop_entry env w))) := by
      have h1 : qnna_wait_for_completion env T (fuel + (T - j) + 1 + j) w
          = wait_loop env (start_of env w) T (fuel + (T - j) + 1)
              ((poll_step env)^[j] (loop_entry env w)) :=
        wait_loop_idle_iter env (start_of env w) T j _ (loop_entry env w) hidle
      rw [h1]
      exact wait_loop_done env _ T _ _ hg hd
    have hfuel2 : fuel + (T - j) + 1 + j = fuel + 1 + T := by omega
    rw [hfuel2, hr] at hrun
    rw [Option.some.inj hrun]

/-- Hardware build against a device that never shows DONE or ERROR: the wait
polls T - 1 times and then gives up. -/
theorem hw_wait_never_terminal (env : Env) (T fuel : Nat) (w : World) (hhw : env.sim = false)
    (hT : T < U32)
    (hnt : ∀ i, (status_seq env w i).testBit 8 = false ∧ (status_seq env w i).testBit 15 = false) :
    qnna_wait_for_completion env T (fuel + 1 + T) w
      = some (false, (get_time_ms env ((poll_step env)^[T - 1] (loop_entry env w))).2) := by
  have h32 : U32 = 4294967296 := by decide
  have h64 : U64 = 18446744073709551616 := by decide
  have hT' : T < 4294967296 := by rw [h32] at hT; exact hT
  have hidle := hw_idle_of_nonterminal env T (T - 1) w hhw hT (Nat.le_refl _) (fun i _ => hnt i)
  have hstop : ¬ guard_at env (start_of env w) T ((poll_step env)^[T - 1] (loop_entry env w)) := by
    rw [hw_guard_iff env T (T - 1) w hhw (by rw [h64]; omega)]
    omega
  have hfuel : fuel + 1 + T = (fuel + (T - (T - 1))) + 1 + (T - 1) := by omega
  have h1 : qnna_wait_for_completion env T ((fuel + (T - (T - 1))) + 1 + (T - 1)) w
      = wait_loop env (start_of env w) T ((fuel + (T - (T - 1))) + 1)
          ((poll_step env)^[T - 1] (loop_entry env w)) :=
    wait_loop_idle_iter env (start_of env w) T (T - 1) _ (loop_entry env w) hidle
  rw [hfuel, h1]
  exact wait_loop_timeout env _ T _ _ hstop

/-! ## Only bits 8 and 15 of the STATUS words matter -/

theorem get_time_ms_congr (env1 env2 : Env) (w : World) (hsim : env1.sim = env2.sim)
    (hclk : env1.clock_gettime = env2.clock_gettime) :
    get_time_ms env1 w = get_time_ms env2 w := by
  unfold get_time_ms
  rw [hsim, hclk]

theorem wait_loop_congr (env1 env2 : Env) (hsim : env1.sim = env2.sim)
    (hclk : env1.clock_gettime = env2.clock_gettime)
    (hbits : ∀ tr v, (env1.device tr v).testBit 8 = (env2.device tr v).testBit 8 ∧
      (env1.device tr v).testBit 15 = (env2.device tr v).testBit 15) (s T : Nat) :
    ∀ (fuel : Nat) (w : World), wait_loop env1 s T fuel w = wait_loop env2 s T fuel w := by
  intro fuel
  induction fuel with
  | zero => intro w; rfl
  | succ fuel ih =>
    intro w
    have ht := get_time_ms_congr env1 env2 w hsim hclk
    have hafter : after_read env1 w = after_read env2 w := by
      simp [after_read, QNNA_READ_REG, ht]
    have hpoll : poll_step env1 w = poll_step env2 w := by
      simp [poll_step, hafter]
    have h8 : (status_at env1 w).testBit 8 = (status_at env2 w).testBit 8 := by
      rw [status_at_eq, status_at_eq, testBit_mod_U32 _ _ (by decide),
        testBit_mod_U32 _ _ (by decide)]
      exact (hbits _ _).1
    have h15 : (status_at env1 w).testBit 15 = (status_at env2 w).testBit 15 := by
      rw [status_at_eq, status_at_eq, testBit_mod_U32 _ _ (by decide),
        testBit_mod_U32 _ _ (by decide)]
      exact (hbits _ _).2
    by_cases hg : guard_at env1 s T w
    · have hg2 : guard_at env2 s T w := by
        unfold guard_at at hg ⊢
        rw [← ht]; exact hg
      cases hd : (status_at env1 w).testBit 8
      · cases he : (status_at env1 w).testBit 15
        · rw [wait_loop_idle env1 s T fuel w hg hd he,
            wait_loop_idle env2 s T fuel w hg2 (h8 ▸ hd) (h15 ▸ he), hpoll]
          exact ih _
        · rw [wait_loop_error env1 s T fuel w hg hd he,
            wait_loop_error env2 s T fuel w hg2 (h8 ▸ hd) (h15 ▸ he), hafter]
      · rw [wait_loop_done env1 s T fuel w hg hd,
          wait_loop_done env2 s T fuel w hg2 (h8 ▸ hd), hafter]
    · have hg2 : ¬ guard_at env2 s T w := by
        unfold guard_at at hg ⊢
        rw [← ht]; exact hg
      rw [wait_loop_timeout env1 s T fuel w hg, wait_loop_timeout env2 s T fuel w hg2, ht]

theorem wait_congr (env1 env2 : Env) (hsim : env1.sim = env2.sim)
    (hclk : env1.clock_gettime = env2.clock_gettime)
    (hbits : ∀ tr v, (env1.device tr v).testBit 8 = (env2.device tr v).testBit 8 ∧
      (env1.device tr v).testBit 15 = (env2.device tr v).testBit 15)
    (T fuel : Nat) (w : World) :
    qnna_wait_for_completion env1 T fuel w = qnna_wait_for_completion env2 T fuel w := by
  unfold qnna_wait_for_completion
  rw [get_time_ms_congr env1 env2 w hsim hclk]
  exact wait_loop_congr env1 env2 hsim hclk hbits _ T fuel _

/-! ## A STATUS word that stays idle -/

/-- In the SIM_MODE build STATUS holds 0 from qnna_init on: configure, start,
read_dimensions and get_status leave word 1 alone. -/
theorem sim_status_stays_zero (env : Env) (m n k : Nat) (relu_en : Bool) (w : World)
    (hsim : env.sim = true) :
    (qnna_start (qnna_configure m n k relu_en (qnna_init env w))).regs 1 = 0 := by
  have hinit : (qnna_init env w).regs 1 = 0 := by
    rw [init_regs]; simp [hsim]
  simp [qnna_start, QNNA_WRITE_REG, kick_idx, configure_regs, Function.update, hinit]

/-! ## Claims about qnna_wait_for_completion -/

/-- Claim C1 fails as stated: with ERROR (bit 15) and DONE (bit 8) both set on
the first STATUS read of an entered loop, the wait returns true, not false. -/
theorem c1_error_priority_fails :
    loop_entered (simEnv 0 (fun _ => 0x8100)) 500 (constWorld 0) ∧
    (first_status (simEnv 0 (fun _ => 0x8100)) (constWorld 0)).testBit 15 = true ∧
    (first_status (simEnv 0 (fun _ => 0x8100)) (constWorld 0)).testBit 8 = true ∧
    (qnna_wait_for_completion (simEnv 0 (fun _ => 0x8100)) 500 1 (constWorld 0)).map Prod.fst
      = some true ∧
    (qnna_wait_for_completion (simEnv 0 (fun _ => 0x8100)) 500 1 (constWorld 0)).map Prod.fst
      ≠ some false := by
  decide

/-- Claim C1 (amended): the priority is DONE over ERROR.  For every environment,
timeout and state for which the polling loop is entered, and every first STATUS
word with both bit 15 and bit 8 set, qnna_wait_for_completion returns true
right after that first read. -/
theorem c1_done_overrides_error (env : Env) (T fuel : Nat) (w : World)
    (hent : loop_entered env T w)
    (herr : (first_status env w).testBit 15 = true)
    (hdone : (first_status env w).testBit 8 = true) :
    (first_status env w &&& STATUS_ERROR ≠ 0) ∧
    qnna_wait_for_completion env T (fuel + 1) w
      = some (true, after_read env (loop_entry env w)) :=
  ⟨(error_iff _).2 herr, wait_loop_done env (start_of env w) T fuel (loop_entry env w) hent hdone⟩

/-- Claim C1 (amended), instance: first STATUS word 0x8100, timeout 500. -/
theorem c1_done_overrides_error_witness :
    loop_entered (simEnv 0 (fun _ => 0x8100)) 500 (constWorld 0) ∧
    ((first_status (simEnv 0 (fun _ => 0x8100)) (constWorld 0) &&& STATUS_ERROR ≠ 0) ∧
    qnna_wait_for_completion (simEnv 0 (fun _ => 0x8100)) 500 (0 + 1) (constWorld 0)
      = some (true, after_read (simEnv 0 (fun _ => 0x8100))
          (loop_entry (simEnv 0 (fun _ => 0x8100)) (constWorld 0)))) :=
  ⟨by decide, c1_done_overrides_error (simEnv 0 (fun _ => 0x8100)) 500 0 (constWorld 0)
    (by decide) (by decide) (by decide)⟩

/-- Claim C2 fails as stated: a run that observes ERROR with DONE clear and a
run whose deadline expires with no DONE or ERROR ever read return the same
value, false. -/
theorem c2_failed_timed_out_same_value :
    (first_status (simEnv 0 (fun _ => 0x8000)) (constWorld 0)).testBit 15 = true ∧
    (first_status (simEnv 0 (fun _ => 0x8000)) (constWorld 0)).testBit 8 = false ∧
    loop_entered (simEnv 0 (fun _ => 0x8000)) 500 (constWorld 0) ∧
    idle_polls (simEnv 0 (fun _ => 0)) 0 100 (loop_entry (simEnv 0 (fun _ => 0)) (constWorld 0)) 1 ∧
    ¬ guard_at (simEnv 0 (fun _ => 0)) 0 100
        (poll_step (simEnv 0 (fun _ => 0)) (loop_entry (simEnv 0 (fun _ => 0)) (constWorld 0))) ∧
    (qnna_wait_for_completion (simEnv 0 (fun _ => 0x8000)) 500 2 (constWorld 0)).map Prod.fst
      = (qnna_wait_for_completion (simEnv 0 (fun _ => 0)) 100 2 (constWorld 0)).map Prod.fst := by
  decide

/-- Claim C2 (amended): device fault and timeout are reported with the same
value.  After any number k of polls that neither finish nor leave the loop,
qnna_wait_for_completion returns false both when the next read shows ERROR with
DONE clear and when the next guard evaluation finds the deadline expired. -/
theorem c2_failed_and_timed_out_both_false (env : Env) (T k fuel : Nat) (w : World)
    (hidle : idle_polls env (start_of env w) T (loop_entry env w) k) :
    (guard_at env (start_of env w) T ((poll_step env)^[k] (loop_entry env w)) →
      (status_at env ((poll_step env)^[k] (loop_entry env w))).testBit 8 = false →
      (status_at env ((poll_step env)^[k] (loop_entry env w))).testBit 15 = true →
      qnna_wait_for_completion env T (fuel + 1 + k) w
        = some (false, after_read env ((poll_step env)^[k] (loop_entry env w)))) ∧
    (¬ guard_at env (start_of env w) T ((poll_step env)^[k] (loop_entry env w)) →
      qnna_wait_for_completion env T (fuel + 1 + k) w
        = some (false, (get_time_ms env ((poll_step env)^[k] (loop_entry env w))).2)) := by
  have hrun : qnna_wait_for_completion env T (fuel + 1 + k) w
      = wait_loop env (start_of env w) T (fuel + 1) ((poll_step env)^[k] (loop_entry env w)) :=
    wait_loop_idle_iter env (start_of env w) T k (fuel + 1) (loop_entry env w) hidle
  constructor
  · intro hg hd he
    rw [hrun]
    exact wait_loop_error env _ T fuel _ hg hd he
  · intro hg
    rw [hrun]
    exact wait_loop_timeout env _ T fuel _ hg

/-- Claim C2 (amended), instances: a first read of 0x8000 under timeout 500
gives false, and so does an idle read of 0 followed by expiry of timeout 100. -/
theorem c2_failed_and_timed_out_both_false_witness :
    (idle_polls (simEnv 0 (fun _ => 0x8000)) (start_of (simEnv 0 (fun _ => 0x8000)) (constWorld 0))
        500 (loop_entry (simEnv 0 (fun _ => 0x8000)) (constWorld 0)) 0 ∧
      idle_polls (simEnv 0 (fun _ => 0)) (start_of (simEnv 0 (fun _ => 0)) (constWorld 0))
        100 (loop_entry (simEnv 0 (fun _ => 0)) (constWorld 0)) 1) ∧
    qnna_wait_for_completion (simEnv 0 (fun _ => 0x8000)) 500 (0 + 1 + 0) (constWorld 0)
      = some (false, after_read (simEnv 0 (fun _ => 0x8000))
          ((poll_step (simEnv 0 (fun _ => 0x8000)))^[0]
            (loop_entry (simEnv 0 (fun _ => 0x8000)) (constWorld 0)))) ∧
    qnna_wait_for_completion (simEnv 0 (fun _ => 0)) 100 (0 + 1 + 1) (constWorld 0)
      = some (false, (get_time_ms (simEnv 0 (fun _ => 0))
          ((poll_step (simEnv 0 (fun _ => 0)))^[1]
            (loop_entry (simEnv 0 (fun _ => 0)) (constWorld 0)))).2) :=
  have h0 : idle_polls (simEnv 0 (fun _ => 0x8000))
      (start_of (simEnv 0 (fun _ => 0x8000)) (constWorld 0))
      500 (loop_entry (simEnv 0 (fun _ => 0x8000)) (constWorld 0)) 0 :=
    fun j hj => absurd hj (Nat.not_lt_zero j)
  have h1 : idle_polls (simEnv 0 (fun _ => 0)) (start_of (simEnv 0 (fun _ => 0)) (constWorld 0))
      100 (loop_entry (simEnv 0 (fun _ => 0)) (constWorld 0)) 1 := by
    decide
  ⟨⟨h0, h1⟩,
   (c2_failed_and_timed_out_both_false (simEnv 0 (fun _ => 0x8000)) 500 0 0 (constWorld 0) h0).1
      (by decide) (by decide) (by decide),
   (c2_failed_and_timed_out_both_false (simEnv 0 (fun _ => 0)) 100 1 0 (constWorld 0) h1).2
      (by decide)⟩

/-! ## Claims about the register file -/

/-- Claim C3: round trip of dimensions.  For every environment and register
file state, every m, n, k below 2^16 and either relu setting, qnna_configure
followed by qnna_read_dimensions yields exactly (m, n, k). -/
theorem c3_dimensions_round_trip (env : Env) (w : World) (m n k : Nat) (relu_en : Bool)
    (hm : m < 65536) (hn : n < 65536) (hk : k < 65536) :
    (qnna_read_dimensions env (qnna_configure m n k relu_en w)).1 = (m, n, k) := by
  have h32 : U32 = 4294967296 := by decide
  have h16 : U16 = 65536 := by decide
  simp only [qnna_read_dimensions]
  rw [read_plain env _ _ (by decide), read_plain env _ _ (by decide),
    read_plain env _ _ (by decide)]
  simp only [read_regs, configure_regs, dim_m_idx, dim_n_idx, dim_k_idx, h32, h16]
  simp [Function.update]
  omega

/-- Claim C3, instance: (65535, 4, 0) with relu over a file of sevens. -/
theorem c3_dimensions_round_trip_witness :
    (65535 < 65536 ∧ 4 < 65536 ∧ 0 < 65536) ∧
    (qnna_read_dimensions (simQuiet 0) (qnna_configure 65535 4 0 true (constWorld 7))).1
      = (65535, 4, 0) :=
  ⟨by decide, c3_dimensions_round_trip (simQuiet 0) (constWorld 7) 65535 4 0 true
    (by decide) (by decide) (by decide)⟩

/-- Claim C4: control bit fidelity.  Whatever the register file held before and
for every m, n, k, after qnna_configure with relu enabled a raw read of CONTROL
is exactly 1 (bit 0 set, bit 3 clear), and with relu disabled it is exactly 0. -/
theorem c4_control_bit_fidelity (env : Env) (w : World) (m n k : Nat) :
    (QNNA_READ_REG env QNNA_CTRL (qnna_configure m n k true w)).1 = 1 ∧
    (qnna_configure m n k true w).regs (QNNA_CTRL >>> 2) = 1 ∧
    (1 &&& CTRL_RELU_EN ≠ 0 ∧ 1 &&& CTRL_IRQ_EN = 0) ∧
    (QNNA_READ_REG env QNNA_CTRL (qnna_configure m n k false w)).1 = 0 ∧
    (qnna_configure m n k false w).regs (QNNA_CTRL >>> 2) = 0 := by
  have ht : (qnna_configure m n k true w).regs 0 = 1 := by
    simp [configure_regs, CTRL_RELU_EN, U32]
  have hf : (qnna_configure m n k false w).regs 0 = 0 := by
    simp [configure_regs]
  refine ⟨?_, ?_, by decide, ?_, ?_⟩
  · rw [read_plain env _ _ (by decide), ctrl_idx]; exact ht
  · rw [ctrl_idx]; exact ht
  · rw [read_plain env _ _ (by decide), ctrl_idx]; exact hf
  · rw [ctrl_idx]; exact hf

/-- Claim C5: reset is idempotent and quiesces CONTROL.  In either build, for
every register file state and every n of at least 1, after n consecutive calls
of qnna_init CONTROL reads 0 and the register file equals the one after a
single call. -/
theorem c5_reset_idempotent (env : Env) (w : World) (n : Nat) (hn : 1 ≤ n) :
    (QNNA_READ_REG env QNNA_CTRL ((qnna_init env)^[n] w)).1 = 0 ∧
    ((qnna_init env)^[n] w).regs (QNNA_CTRL >>> 2) = 0 ∧
    ((qnna_init env)^[n] w).regs = (qnna_init env w).regs := by
  have hregs : ∀ j : Nat, ((qnna_init env)^[j + 1] w).regs = (qnna_init env w).regs := by
    intro j
    induction j with
    | zero => rfl
    | succ j ih =>
      rw [Function.iterate_succ_apply']
      exact init_regs_idem env w _ ih
  obtain ⟨j, rfl⟩ : ∃ j, n = j + 1 := ⟨n - 1, by omega⟩
  have h0 : ((qnna_init env)^[j + 1] w).regs 0 = 0 := by
    rw [hregs j, init_regs]; simp
  refine ⟨?_, ?_, hregs j⟩
  · rw [read_plain env _ _ (by decide), ctrl_idx]; exact h0
  · rw [ctrl_idx]; exact h0

/-- Claim C5, instance: three resets of a file of sevens in the SIM_MODE build. -/
theorem c5_reset_idempotent_witness :
    1 ≤ 3 ∧
    ((QNNA_READ_REG (simQuiet 0) QNNA_CTRL ((qnna_init (simQuiet 0))^[3] (constWorld 7))).1 = 0 ∧
    ((qnna_init (simQuiet 0))^[3] (constWorld 7)).regs (QNNA_CTRL >>> 2) = 0 ∧
    ((qnna_init (simQuiet 0))^[3] (constWorld 7)).regs
      = (qnna_init (simQuiet 0) (constWorld 7)).regs) :=
  ⟨by decide, c5_reset_idempotent (simQuiet 0) (constWorld 7) 3 (by decide)⟩

/-- Claim C6 fails as stated: in the SIM_MODE build qnna_init clears the whole
register file, so DIM_M, DIM_N, DIM_K and STATUS holding 7 all read 0 after it. -/
theorem c6_sim_reset_clears_registers :
    (simQuiet 0).sim = true ∧
    (constWorld 7).regs (QNNA_DIM_M >>> 2) = 7 ∧
    (qnna_init (simQuiet 0) (constWorld 7)).regs (QNNA_DIM_M >>> 2) = 0 ∧
    (constWorld 7).regs (QNNA_DIM_N >>> 2) = 7 ∧
    (qnna_init (simQuiet 0) (constWorld 7)).regs (QNNA_DIM_N >>> 2) = 0 ∧
    (constWorld 7).regs (QNNA_DIM_K >>> 2) = 7 ∧
    (qnna_init (simQuiet 0) (constWorld 7)).regs (QNNA_DIM_K >>> 2) = 0 ∧
    (constWorld 7).regs (QNNA_STATUS >>> 2) = 7 ∧
    (qnna_init (simQuiet 0) (constWorld 7)).regs (QNNA_STATUS >>> 2) = 0 ∧
    (qnna_get_status (simQuiet 0) (constWorld 7)).1 = 7 ∧
    (qnna_get_status (simQuiet 0) (qnna_init (simQuiet 0) (constWorld 7))).1 = 0 := by
  decide

/-- Claim C6 (amended): in the SIM_MODE build qnna_init zeroes the register
file, so DIM_M, DIM_N, DIM_K and STATUS each hold 0 after it; in the hardware
build, which has no memset, each of the four holds the value it had before. -/
theorem c6_reset_frame_by_build (env : Env) (w : World) :
    (qnna_init env w).regs (QNNA_DIM_M >>> 2)
      = (if env.sim = true then 0 else w.regs (QNNA_DIM_M >>> 2)) ∧
    (qnna_init env w).regs (QNNA_DIM_N >>> 2)
      = (if env.sim = true then 0 else w.regs (QNNA_DIM_N >>> 2)) ∧
    (qnna_init env w).regs (QNNA_DIM_K >>> 2)
      = (if env.sim = true then 0 else w.regs (QNNA_DIM_K >>> 2)) ∧
    (qnna_init env w).regs (QNNA_STATUS >>> 2)
      = (if env.sim = true then 0 else w.regs (QNNA_STATUS >>> 2)) := by
  rw [init_regs, dim_m_idx, dim_n_idx, dim_k_idx, status_idx]
  cases env.sim <;> simp

/-! ## Claims about completion, timeout and the write sequences -/

/-- Claim C7: immediate completion.  For every environment, timeout and state
for which the polling loop is entered, and every first STATUS word with bit 8
set, qnna_wait_for_completion returns true after exactly one STATUS read and no
call of delay_ms: it adds two clock readings and one STATUS read to the trace. -/
theorem c7_immediate_completion (env : Env) (T fuel : Nat) (w : World)
    (hent : loop_entered env T w) (hdone : (first_status env w).testBit 8 = true) :
    qnna_wait_for_completion env T (fuel + 1) w
      = some (true, after_read env (loop_entry env w)) ∧
    (after_read env (loop_entry env w)).trace
      = w.trace ++ [Event.get_time, Event.get_time, Event.read QNNA_STATUS] ∧
    statusReads (after_read env (loop_entry env w)).trace = statusReads w.trace + 1 ∧
    delayCalls (after_read env (loop_entry env w)).trace = delayCalls w.trace := by
  have htr : (after_read env (loop_entry env w)).trace
      = w.trace ++ [Event.get_time, Event.get_time, Event.read QNNA_STATUS] := by
    simp [after_read_trace, loop_entry, get_time_ms_trace]
  refine ⟨wait_loop_done env (start_of env w) T fuel (loop_entry env w) hent hdone, htr, ?_, ?_⟩
  · rw [htr, statusReads_append]; rfl
  · rw [htr, delayCalls_append]; rfl

/-- Claim C7, instance: first STATUS word 0x180 (DONE and BUSY), timeout 1. -/
theorem c7_immediate_completion_witness :
    (loop_entered (simEnv 0 (fun _ => 0x180)) 1 (constWorld 0) ∧
      (first_status (simEnv 0 (fun _ => 0x180)) (constWorld 0)).testBit 8 = true) ∧
    (qnna_wait_for_completion (simEnv 0 (fun _ => 0x180)) 1 (0 + 1) (constWorld 0)
      = some (true, after_read (simEnv 0 (fun _ => 0x180))
          (loop_entry (simEnv 0 (fun _ => 0x180)) (constWorld 0))) ∧
    (after_read (simEnv 0 (fun _ => 0x180))
        (loop_entry (simEnv 0 (fun _ => 0x180)) (constWorld 0))).trace
      = (constWorld 0).trace ++ [Event.get_time, Event.get_time, Event.read QNNA_STATUS] ∧
    statusReads (after_read (simEnv 0 (fun _ => 0x180))
        (loop_entry (simEnv 0 (fun _ => 0x180)) (constWorld 0))).trace
      = statusReads (constWorld 0).trace + 1 ∧
    delayCalls (after_read (simEnv 0 (fun _ => 0x180))
        (loop_entry (simEnv 0 (fun _ => 0x180)) (constWorld 0))).trace
      = delayCalls (constWorld 0).trace) :=
  ⟨by decide, c7_immediate_completion (simEnv 0 (fun _ => 0x180)) 1 0 (constWorld 0)
    (by decide) (by decide)⟩

/-- Claim C8: timeout boundary.  Under the ideal clock, for every 32-bit
timeout T and every device that never sets DONE or ERROR, and with fuel for at
least ceil(T/100) + 1 guard evaluations, qnna_wait_for_completion returns false
after exactly ceil(T/100) STATUS reads, and the elapsed time E measured at
return satisfies T <= E < T + 100. -/
theorem c8_timeout_boundary (env : Env) (t0 T fuel : Nat) (w : World)
    (hsim : env.sim = true) (hclk : env.clock_gettime = idealClock t0) (hT : T < U32)
    (hdev : ∀ tr v, (env.device tr v).testBit 8 = false ∧ (env.device tr v).testBit 15 = false) :
    ∃ w', qnna_wait_for_completion env T (fuel + 1 + (T + 99) / 100) w = some (false, w') ∧
      statusReads w'.trace = statusReads w.trace + (T + 99) / 100 ∧
      delayCalls w'.trace = delayCalls w.trace + (T + 99) / 100 ∧
      elapsed_u64 (get_time_ms env w').1 (start_of env w) = 100 * ((T + 99) / 100) ∧
      T ≤ elapsed_u64 (get_time_ms env w').1 (start_of env w) ∧
      elapsed_u64 (get_time_ms env w').1 (start_of env w) < T + 100 := by
  have h32 : U32 = 4294967296 := by decide
  have h64 : U64 = 18446744073709551616 := by decide
  refine ⟨_, wait_ideal_never_terminal env t0 T fuel w hsim hclk hT hdev, ?_, ?_, ?_⟩
  · rw [get_time_ms_trace, statusReads_append, poll_iter_statusReads]
    simp [loop_entry, get_time_ms_trace, statusReads_append, statusReads]
  · rw [get_time_ms_trace, delayCalls_append, poll_iter_delayCalls]
    simp [loop_entry, get_time_ms_trace, delayCalls_append, delayCalls]
  · have hE : elapsed_u64 (get_time_ms env (get_time_ms env
          ((poll_step env)^[(T + 99) / 100] (loop_entry env w))).2).1 (start_of env w)
        = 100 * ((T + 99) / 100) := by
      unfold start_of
      rw [ideal_reading env t0 _ hsim hclk, ideal_reading env t0 w hsim hclk,
        get_time_ms_trace, sleptMs_append, poll_iter_sleptMs]
      simp only [loop_entry, get_time_ms_trace, sleptMs_append, sleptMs]
      unfold elapsed_u64
      rw [h32] at hT
      rw [h64]
      omega
    rw [hE]
    omega

/-- Claim C8, instance: timeout 250 against a device that is always BUSY gives
three reads and an elapsed time of 300. -/
theorem c8_timeout_boundary_witness :
    ((simEnv 5 (fun _ => 0x80)).sim = true ∧
      (simEnv 5 (fun _ => 0x80)).clock_gettime = idealClock 5 ∧ 250 < U32) ∧
    ∃ w', qnna_wait_for_completion (simEnv 5 (fun _ => 0x80)) 250 (0 + 1 + (250 + 99) / 100)
          (constWorld 0) = some (false, w') ∧
      statusReads w'.trace = statusReads (constWorld 0).trace + (250 + 99) / 100 ∧
      delayCalls w'.trace = delayCalls (constWorld 0).trace + (250 + 99) / 100 ∧
      elapsed_u64 (get_time_ms (simEnv 5 (fun _ => 0x80)) w').1
          (start_of (simEnv 5 (fun _ => 0x80)) (constWorld 0)) = 100 * ((250 + 99) / 100) ∧
      250 ≤ elapsed_u64 (get_time_ms (simEnv 5 (fun _ => 0x80)) w').1
          (start_of (simEnv 5 (fun _ => 0x80)) (constWorld 0)) ∧
      elapsed_u64 (get_time_ms (simEnv 5 (fun _ => 0x80)) w').1
          (start_of (simEnv 5 (fun _ => 0x80)) (constWorld 0)) < 250 + 100 :=
  ⟨⟨rfl, rfl, by decide⟩, c8_timeout_boundary (simEnv 5 (fun _ => 0x80)) 5 250 0 (constWorld 0)
    rfl rfl (by decide)
    (fun _ _ => ⟨show Nat.testBit 0x80 8 = false by decide,
      show Nat.testBit 0x80 15 = false by decide⟩)⟩

/-- Claim C9 fails as stated: qnna_configure issues four writes, starting with
DIM_M; it does not begin with a write of 0 to CONTROL. -/
theorem c9_configure_has_no_reset_write :
    writesOf (qnna_configure 4 4 4 false (constWorld 7)).trace
      = [(QNNA_DIM_M, 4), (QNNA_DIM_N, 4), (QNNA_DIM_K, 4), (QNNA_CTRL, 0)] ∧
    writesOf (qnna_configure 4 4 4 false (constWorld 7)).trace
      ≠ [(QNNA_CTRL, 0), (QNNA_DIM_M, 4), (QNNA_DIM_N, 4), (QNNA_DIM_K, 4), (QNNA_CTRL, 0)] := by
  decide

/-- Claim C9 (amended): qnna_configure performs dimensions, then control.  For
every m, n, k and relu its actions are exactly the four writes DIM_M := m,
DIM_N := n, DIM_K := k, CONTROL := (1 if relu, else 0), in that order.  The
write CONTROL := 0 belongs to qnna_init: qnna_init followed by qnna_configure
issues the five writes in the order reset, dimensions, control. -/
theorem c9_configure_write_sequence (env : Env) (m n k : Nat) (relu_en : Bool) (w : World) :
    (qnna_configure m n k relu_en w).trace
      = w.trace ++ [Event.write QNNA_DIM_M m, Event.write QNNA_DIM_N n,
          Event.write QNNA_DIM_K k, Event.write QNNA_CTRL (if relu_en then 1 else 0)] ∧
    writesOf (qnna_configure m n k relu_en w).trace
      = writesOf w.trace ++ [(QNNA_DIM_M, m), (QNNA_DIM_N, n), (QNNA_DIM_K, k),
          (QNNA_CTRL, if relu_en then 1 else 0)] ∧
    writesOf (qnna_configure m n k relu_en (qnna_init env w)).trace
      = writesOf w.trace ++ [(QNNA_CTRL, 0), (QNNA_DIM_M, m), (QNNA_DIM_N, n), (QNNA_DIM_K, k),
          (QNNA_CTRL, if relu_en then 1 else 0)] := by
  have h1 : CTRL_RELU_EN = 1 := by decide
  have htr : ∀ v : World, (qnna_configure m n k relu_en v).trace
      = v.trace ++ [Event.write QNNA_DIM_M m, Event.write QNNA_DIM_N n,
          Event.write QNNA_DIM_K k, Event.write QNNA_CTRL (if relu_en then 1 else 0)] := by
    intro v
    simp [qnna_configure, QNNA_WRITE_REG, h1]
  have hinit : writesOf (qnna_init env w).trace = writesOf w.trace ++ [(QNNA_CTRL, 0)] := by
    unfold qnna_init
    cases env.sim <;>
      simp [QNNA_WRITE_REG, memset_regs, writesOf_append, writesOf]
  refine ⟨htr w, ?_, ?_⟩
  · rw [htr w, writesOf_append]; rfl
  · rw [htr, writesOf_append, hinit]
    simp [writesOf]

/-- Claim C10: kick is a single write of 1 to KICK.  For every register file
state, qnna_start performs exactly one action, the write KICK := 1; afterwards
KICK holds 1 and every other word, in particular CONTROL, STATUS, DIM_M, DIM_N
and DIM_K, holds what it held before, so qnna_read_dimensions and a raw CONTROL
read agree after configure then start and after configure alone. -/
theorem c10_kick_single_write (env : Env) (w : World) (m n k : Nat) (relu_en : Bool) :
    (qnna_start w).trace = w.trace ++ [Event.write QNNA_KICK 1] ∧
    (qnna_start w).regs (QNNA_KICK >>> 2) = 1 ∧
    (qnna_start w).regs = Function.update w.regs (QNNA_KICK >>> 2) 1 ∧
    ((qnna_start w).regs (QNNA_CTRL >>> 2) = w.regs (QNNA_CTRL >>> 2) ∧
      (qnna_start w).regs (QNNA_STATUS >>> 2) = w.regs (QNNA_STATUS >>> 2) ∧
      (qnna_start w).regs (QNNA_DIM_M >>> 2) = w.regs (QNNA_DIM_M >>> 2) ∧
      (qnna_start w).regs (QNNA_DIM_N >>> 2) = w.regs (QNNA_DIM_N >>> 2) ∧
      (qnna_start w).regs (QNNA_DIM_K >>> 2) = w.regs (QNNA_DIM_K >>> 2)) ∧
    (qnna_read_dimensions env (qnna_start (qnna_configure m n k relu_en w))).1
      = (qnna_read_dimensions env (qnna_configure m n k relu_en w)).1 ∧
    (QNNA_READ_REG env QNNA_CTRL (qnna_start (qnna_configure m n k relu_en w))).1
      = (QNNA_READ_REG env QNNA_CTRL (qnna_configure m n k relu_en w)).1 := by
  have hregs : ∀ v : World, (qnna_start v).regs = Function.update v.regs 8 1 := by
    intro v
    simp [qnna_start, QNNA_WRITE_REG, kick_idx, U32]
  refine ⟨rfl, ?_, ?_, ?_, ?_, ?_⟩
  · rw [hregs, kick_idx]; simp
  · rw [hregs, kick_idx]
  · rw [hregs, ctrl_idx, status_idx, dim_m_idx, dim_n_idx, dim_k_idx]
    simp [Function.update]
  · simp only [qnna_read_dimensions]
    rw [read_plain env _ _ (by decide), read_plain env _ _ (by decide),
      read_plain env _ _ (by decide), read_plain env _ _ (by decide),
      read_plain env _ _ (by decide), read_plain env _ _ (by decide)]
    simp only [read_regs, hregs, dim_m_idx, dim_n_idx, dim_k_idx]
    simp [Function.update]
  · rw [read_plain env _ _ (by decide), read_plain env _ _ (by decide), hregs, ctrl_idx]
    simp [Function.update]

/-! ## Accessed offsets of the driver functions -/

theorem init_accessOffsets (env : Env) (w : World) :
    accessOffsets (qnna_init env w).trace = accessOffsets w.trace ++ [QNNA_CTRL] := by
  unfold qnna_init
  cases env.sim <;> simp [QNNA_WRITE_REG, memset_regs, accessOffsets_append, accessOffsets]

theorem configure_accessOffsets (m n k : Nat) (relu_en : Bool) (w : World) :
    accessOffsets (qnna_configure m n k relu_en w).trace
      = accessOffsets w.trace ++ [QNNA_DIM_M, QNNA_DIM_N, QNNA_DIM_K, QNNA_CTRL] := by
  simp [qnna_configure, QNNA_WRITE_REG, accessOffsets_append, accessOffsets]

theorem start_accessOffsets (w : World) :
    accessOffsets (qnna_start w).trace = accessOffsets w.trace ++ [QNNA_KICK] := by
  simp [qnna_start, QNNA_WRITE_REG, accessOffsets_append, accessOffsets]

theorem get_status_accessOffsets (env : Env) (w : World) :
    accessOffsets (qnna_get_status env w).2.trace = accessOffsets w.trace ++ [QNNA_STATUS] := by
  simp [qnna_get_status, QNNA_READ_REG, accessOffsets_append, accessOffsets]

theorem read_dimensions_trace (env : Env) (w : World) :
    (qnna_read_dimensions env w).2.trace
      = w.trace ++ [Event.read QNNA_DIM_M, Event.read QNNA_DIM_N, Event.read QNNA_DIM_K] := by
  simp [qnna_read_dimensions, QNNA_READ_REG]

theorem read_dimensions_accessOffsets (env : Env) (w : World) :
    accessOffsets (qnna_read_dimensions env w).2.trace
      = accessOffsets w.trace ++ [QNNA_DIM_M, QNNA_DIM_N, QNNA_DIM_K] := by
  rw [read_dimensions_trace, accessOffsets_append]
  simp [accessOffsets]

theorem trace_in_bounds_extend (a : List Event) (l : List Nat) (t : List Event)
    (ha : trace_in_bounds a) (ht : accessOffsets t = accessOffsets a ++ l)
    (hl : ∀ o, o ∈ l → in_bounds o) : trace_in_bounds t := by
  intro o ho
  rw [ht, List.mem_append] at ho
  rcases ho with h | h
  · exact ha o h
  · exact hl o h

theorem replicate_status_in_bounds (n : Nat) :
    ∀ o, o ∈ List.replicate n QNNA_STATUS → in_bounds o := by
  intro o ho
  rw [List.eq_of_mem_replicate ho]
  decide

/-! ## Claims about bounds, read-back, faults and the frame of the wait -/

/-- Claim C11: register accesses are always in bounds.  Each of the six offsets
is a multiple of 4 and maps under offset >> 2 to a word index below 256.  If all
accesses before a call were in bounds, so are all accesses after qnna_init,
qnna_configure, qnna_start, qnna_get_status and qnna_read_dimensions, after any
number of loop iterations of qnna_wait_for_completion, and in whatever state
the wait returns. -/
theorem c11_register_accesses_in_bounds (env : Env) (T fuel m n k : Nat) (relu_en : Bool)
    (w : World) (r : Bool × World)
    (hpre : trace_in_bounds w.trace)
    (hret : qnna_wait_for_completion env T fuel w = some r) :
    (in_bounds QNNA_CTRL ∧ in_bounds QNNA_STATUS ∧ in_bounds QNNA_DIM_M ∧
      in_bounds QNNA_DIM_N ∧ in_bounds QNNA_DIM_K ∧ in_bounds QNNA_KICK) ∧
    trace_in_bounds (qnna_init env w).trace ∧
    trace_in_bounds (qnna_configure m n k relu_en w).trace ∧
    trace_in_bounds (qnna_start w).trace ∧
    trace_in_bounds (qnna_get_status env w).2.trace ∧
    trace_in_bounds (qnna_read_dimensions env w).2.trace ∧
    (∀ j, trace_in_bounds ((poll_step env)^[j] (loop_entry env w)).trace) ∧
    trace_in_bounds r.2.trace := by
  refine ⟨by decide, ?_, ?_, ?_, ?_, ?_, ?_, ?_⟩
  · exact trace_in_bounds_extend _ _ _ hpre (init_accessOffsets env w) (by decide)
  · exact trace_in_bounds_extend _ _ _ hpre (configure_accessOffsets m n k relu_en w) (by decide)
  · exact trace_in_bounds_extend _ _ _ hpre (start_accessOffsets w) (by decide)
  · exact trace_in_bounds_extend _ _ _ hpre (get_status_accessOffsets env w) (by decide)
  · exact trace_in_bounds_extend _ _ _ hpre (read_dimensions_accessOffsets env w) (by decide)
  · intro j
    refine trace_in_bounds_extend _ (List.replicate j QNNA_STATUS) _ hpre ?_
      (replicate_status_in_bounds j)
    rw [poll_iter_accessOffsets, loop_entry_trace, accessOffsets_append]
    simp [accessOffsets]
  · obtain ⟨cnt, hcnt⟩ := (wait_frame env T fuel w r hret).2.2
    exact trace_in_bounds_extend _ _ _ hpre hcnt (replicate_status_in_bounds cnt)

/-- Claim C11, instance: a completed wait of the SIM_MODE build from an empty
trace. -/
theorem c11_register_accesses_in_bounds_witness :
    (trace_in_bounds (constWorld 0).trace ∧
      qnna_wait_for_completion (simEnv 0 (fun _ => 0x100)) 500 (0 + 1) (constWorld 0)
        = some (true, after_read (simEnv 0 (fun _ => 0x100))
            (loop_entry (simEnv 0 (fun _ => 0x100)) (constWorld 0)))) ∧
    trace_in_bounds (after_read (simEnv 0 (fun _ => 0x100))
        (loop_entry (simEnv 0 (fun _ => 0x100)) (constWorld 0))).trace :=
  have hpre : trace_in_bounds (constWorld 0).trace := fun o ho => by
    simp [constWorld, accessOffsets] at ho
  have hret : qnna_wait_for_completion (simEnv 0 (fun _ => 0x100)) 500 (0 + 1) (constWorld 0)
      = some (true, after_read (simEnv 0 (fun _ => 0x100))
          (loop_entry (simEnv 0 (fun _ => 0x100)) (constWorld 0))) :=
    wait_loop_done (simEnv 0 (fun _ => 0x100)) (start_of (simEnv 0 (fun _ => 0x100)) (constWorld 0))
      500 0 (loop_entry (simEnv 0 (fun _ => 0x100)) (constWorld 0)) (by decide) (by decide)
  ⟨⟨hpre, hret⟩,
    (c11_register_accesses_in_bounds (simEnv 0 (fun _ => 0x100)) 500 (0 + 1) 4 4 4 false
      (constWorld 0) _ hpre hret).2.2.2.2.2.2.2⟩

/-- Claim C12: dimension read-back truncates to 16 bits.  For every register
file state, whatever the DIM words hold, qnna_read_dimensions returns
(DIM_M mod 2^16, DIM_N mod 2^16, DIM_K mod 2^16), performs exactly the three
reads and leaves the register file unchanged. -/
theorem c12_read_dimensions_truncates (env : Env) (w : World) :
    (qnna_read_dimensions env w).1
      = (w.regs (QNNA_DIM_M >>> 2) % 2 ^ 16, w.regs (QNNA_DIM_N >>> 2) % 2 ^ 16,
          w.regs (QNNA_DIM_K >>> 2) % 2 ^ 16) ∧
    (qnna_read_dimensions env w).2.regs = w.regs ∧
    (qnna_read_dimensions env w).2.trace
      = w.trace ++ [Event.read QNNA_DIM_M, Event.read QNNA_DIM_N, Event.read QNNA_DIM_K] ∧
    writesOf (qnna_read_dimensions env w).2.trace = writesOf w.trace := by
  refine ⟨?_, rfl, read_dimensions_trace env w, ?_⟩
  · simp only [qnna_read_dimensions]
    rw [read_plain env _ _ (by decide), read_plain env _ _ (by decide),
      read_plain env _ _ (by decide)]
    rfl
  · rw [read_dimensions_trace, writesOf_append]
    simp [writesOf]

/-- Claim C13: a device fault is surfaced at once and not retried.  If the
first i reads of the wait are idle and happen before the deadline, and read i
also happens before the deadline and shows ERROR with DONE clear, then
qnna_wait_for_completion returns false after exactly i + 1 STATUS reads and i
delays; the read that showed ERROR is its last action. -/
theorem c13_fault_surfaced_immediately (env : Env) (T i fuel : Nat) (w : World)
    (hidle : idle_polls env (start_of env w) T (loop_entry env w) i)
    (hg : guard_at env (start_of env w) T ((poll_step env)^[i] (loop_entry env w)))
    (hd : (status_seq env w i).testBit 8 = false)
    (he : (status_seq env w i).testBit 15 = true) :
    ∃ w', qnna_wait_for_completion env T (fuel + 1 + i) w = some (false, w') ∧
      statusReads w'.trace = statusReads w.trace + (i + 1) ∧
      delayCalls w'.trace = delayCalls w.trace + i ∧
      w'.trace = ((poll_step env)^[i] (loop_entry env w)).trace
        ++ [Event.get_time, Event.read QNNA_STATUS] := by
  have hrun : qnna_wait_for_completion env T (fuel + 1 + i) w
      = wait_loop env (start_of env w) T (fuel + 1) ((poll_step env)^[i] (loop_entry env w)) :=
    wait_loop_idle_iter env (start_of env w) T i (fuel + 1) (loop_entry env w) hidle
  refine ⟨after_read env ((poll_step env)^[i] (loop_entry env w)), ?_, ?_, ?_, ?_⟩
  · rw [hrun]
    exact wait_loop_error env _ T fuel _ hg hd he
  · rw [after_read_trace, statusReads_append, poll_iter_statusReads, loop_entry_trace,
      statusReads_append]
    simp [statusReads]
    omega
  · rw [after_read_trace, delayCalls_append, poll_iter_delayCalls, loop_entry_trace,
      delayCalls_append]
    simp [delayCalls]
  · exact after_read_trace env _

/-- Claim C13, instance: BUSY, BUSY, then ERROR at read 2 under timeout 500. -/
theorem c13_fault_surfaced_immediately_witness :
    (idle_polls (simEnv 0 (fun i => if i = 2 then 0x8000 else 0x80))
        (start_of (simEnv 0 (fun i => if i = 2 then 0x8000 else 0x80)) (constWorld 0)) 500
        (loop_entry (simEnv 0 (fun i => if i = 2 then 0x8000 else 0x80)) (constWorld 0)) 2 ∧
      (status_seq (simEnv 0 (fun i => if i = 2 then 0x8000 else 0x80)) (constWorld 0) 2).testBit 15
        = true) ∧
    ∃ w', qnna_wait_for_completion (simEnv 0 (fun i => if i = 2 then 0x8000 else 0x80)) 500
          (0 + 1 + 2) (constWorld 0) = some (false, w') ∧
      statusReads w'.trace = statusReads (constWorld 0).trace + (2 + 1) ∧
      delayCalls w'.trace = delayCalls (constWorld 0).trace + 2 ∧
      w'.trace = ((poll_step (simEnv 0 (fun i => if i = 2 then 0x8000 else 0x80)))^[2]
          (loop_entry (simEnv 0 (fun i => if i = 2 then 0x8000 else 0x80)) (constWorld 0))).trace
        ++ [Event.get_time, Event.read QNNA_STATUS] :=
  ⟨by decide,
    c13_fault_surfaced_immediately (simEnv 0 (fun i => if i = 2 then 0x8000 else 0x80)) 500 2 0
      (constWorld 0) (by decide) (by decide) (by decide) (by decide)⟩

/-- Claim C14: waiting writes nothing.  For every environment, timeout and
state, whatever outcome qnna_wait_for_completion returns, the register file
then equals the one at the call, so CONTROL, DIM_M, DIM_N, DIM_K and KICK hold
their old values, and no write was added to the trace; the same holds after any
number of loop iterations, and for qnna_get_status. -/
theorem c14_wait_writes_nothing (env : Env) (T fuel : Nat) (w : World) (b : Bool) (w' : World)
    (hret : qnna_wait_for_completion env T fuel w = some (b, w')) :
    (w'.regs = w.regs ∧ writesOf w'.trace = writesOf w.trace) ∧
    (w'.regs (QNNA_CTRL >>> 2) = w.regs (QNNA_CTRL >>> 2) ∧
      w'.regs (QNNA_DIM_M >>> 2) = w.regs (QNNA_DIM_M >>> 2) ∧
      w'.regs (QNNA_DIM_N >>> 2) = w.regs (QNNA_DIM_N >>> 2) ∧
      w'.regs (QNNA_DIM_K >>> 2) = w.regs (QNNA_DIM_K >>> 2) ∧
      w'.regs (QNNA_KICK >>> 2) = w.regs (QNNA_KICK >>> 2)) ∧
    (∀ j, ((poll_step env)^[j] (loop_entry env w)).regs = w.regs ∧
      writesOf ((poll_step env)^[j] (loop_entry env w)).trace = writesOf w.trace) ∧
    ((qnna_get_status env w).2.regs = w.regs ∧
      writesOf (qnna_get_status env w).2.trace = writesOf w.trace) := by
  obtain ⟨hregs, hwr, _⟩ := wait_frame env T fuel w (b, w') hret
  have hregs' : w'.regs = w.regs := hregs
  refine ⟨⟨hregs', hwr⟩, ?_, ?_, rfl, ?_⟩
  · simp [hregs']
  · intro j
    refine ⟨by rw [poll_iter_regs, loop_entry_regs], ?_⟩
    rw [poll_iter_writesOf, loop_entry_trace, writesOf_append]
    simp [writesOf]
  · simp [qnna_get_status, QNNA_READ_REG, writesOf_append, writesOf]

/-- Claim C14, instances: a completed, a failed and a timed out wait over a
register file of sevens. -/
theorem c14_wait_writes_nothing_witness :
    (qnna_wait_for_completion (simEnv 0 (fun _ => 0x100)) 500 (0 + 1) (constWorld 7)
        = some (true, after_read (simEnv 0 (fun _ => 0x100))
            (loop_entry (simEnv 0 (fun _ => 0x100)) (constWorld 7))) ∧
      writesOf (after_read (simEnv 0 (fun _ => 0x100))
          (loop_entry (simEnv 0 (fun _ => 0x100)) (constWorld 7))).trace
        = writesOf (constWorld 7).trace) ∧
    (qnna_wait_for_completion (simEnv 0 (fun _ => 0x8000)) 500 (0 + 1) (constWorld 7)
        = some (false, after_read (simEnv 0 (fun _ => 0x8000))
            (loop_entry (simEnv 0 (fun _ => 0x8000)) (constWorld 7))) ∧
      (after_read (simEnv 0 (fun _ => 0x8000))
          (loop_entry (simEnv 0 (fun _ => 0x8000)) (constWorld 7))).regs = (constWorld 7).regs) ∧
    (qnna_wait_for_completion (simEnv 0 (fun _ => 0)) 0 (0 + 1) (constWorld 7)
        = some (false, (get_time_ms (simEnv 0 (fun _ => 0))
            (loop_entry (simEnv 0 (fun _ => 0)) (constWorld 7))).2) ∧
      (get_time_ms (simEnv 0 (fun _ => 0))
          (loop_entry (simEnv 0 (fun _ => 0)) (constWorld 7))).2.regs = (constWorld 7).regs) :=
  have hdone : qnna_wait_for_completion (simEnv 0 (fun _ => 0x100)) 500 (0 + 1) (constWorld 7)
      = some (true, after_read (simEnv 0 (fun _ => 0x100))
          (loop_entry (simEnv 0 (fun _ => 0x100)) (constWorld 7))) :=
    wait_loop_done (simEnv 0 (fun _ => 0x100))
      (start_of (simEnv 0 (fun _ => 0x100)) (constWorld 7)) 500 0
      (loop_entry (simEnv 0 (fun _ => 0x100)) (constWorld 7)) (by decide) (by decide)
  have hfail : qnna_wait_for_completion (simEnv 0 (fun _ => 0x8000)) 500 (0 + 1) (constWorld 7)
      = some (false, after_read (simEnv 0 (fun _ => 0x8000))
          (loop_entry (simEnv 0 (fun _ => 0x8000)) (constWorld 7))) :=
    wait_loop_error (simEnv 0 (fun _ => 0x8000))
      (start_of (simEnv 0 (fun _ => 0x8000)) (constWorld 7)) 500 0
      (loop_entry (simEnv 0 (fun _ => 0x8000)) (constWorld 7))
      (by decide) (by decide) (by decide)
  have hout : qnna_wait_for_completion (simEnv 0 (fun _ => 0)) 0 (0 + 1) (constWorld 7)
      = some (false, (get_time_ms (simEnv 0 (fun _ => 0))
          (loop_entry (simEnv 0 (fun _ => 0)) (constWorld 7))).2) :=
    wait_loop_timeout (simEnv 0 (fun _ => 0))
      (start_of (simEnv 0 (fun _ => 0)) (constWorld 7)) 0 0
      (loop_entry (simEnv 0 (fun _ => 0)) (constWorld 7)) (by decide)
  ⟨⟨hdone, (c14_wait_writes_nothing (simEnv 0 (fun _ => 0x100)) 500 (0 + 1) (constWorld 7)
      true _ hdone).1.2⟩,
   ⟨hfail, (c14_wait_writes_nothing (simEnv 0 (fun _ => 0x8000)) 500 (0 + 1) (constWorld 7)
      false _ hfail).1.1⟩,
   ⟨hout, (c14_wait_writes_nothing (simEnv 0 (fun _ => 0)) 0 (0 + 1) (constWorld 7)
      false _ hout).1.1⟩⟩

/-! ## Claims about the step budget and the role of the STATUS bits -/

/-- Claim C15: in the hardware build the timeout is a step budget.  For every
initial counter value, every 32-bit timeout T and fuel for at least T + 1 guard
evaluations, qnna_wait_for_completion returns, and it returns true exactly when
some read j with j + 1 < T shows DONE after reads that showed neither DONE nor
ERROR.  Against a device that never shows DONE or ERROR it returns false after
exactly T - 1 STATUS reads (none when T = 0). -/
theorem c15_step_count_budget (env : Env) (T fuel : Nat) (w : World)
    (hhw : env.sim = false) (hT : T < U32) :
    (∃ r, qnna_wait_for_completion env T (fuel + 1 + T) w = some r ∧
      (r.1 = true ↔ ∃ j, j + 1 < T ∧ (status_seq env w j).testBit 8 = true ∧
        ∀ i, i < j → (status_seq env w i).testBit 8 = false ∧
          (status_seq env w i).testBit 15 = false)) ∧
    ((∀ i, (status_seq env w i).testBit 8 = false ∧ (status_seq env w i).testBit 15 = false) →
      ∃ w', qnna_wait_for_completion env T (fuel + 1 + T) w = some (false, w') ∧
        statusReads w'.trace = statusReads w.trace + (T - 1) ∧
        delayCalls w'.trace = delayCalls w.trace + (T - 1)) := by
  refine ⟨hw_wait_result env T fuel w hhw hT, ?_⟩
  intro hnt
  refine ⟨_, hw_wait_never_terminal env T fuel w hhw hT hnt, ?_, ?_⟩
  · rw [get_time_ms_trace, statusReads_append, poll_iter_statusReads, loop_entry_trace,
      statusReads_append]
    simp [statusReads]
  · rw [get_time_ms_trace, delayCalls_append, poll_iter_delayCalls, loop_entry_trace,
      delayCalls_append]
    simp [delayCalls]

/-- Claim C15, instance: counter two steps below 2^64, timeout 5, a device that
is always BUSY: four reads. -/
theorem c15_step_count_budget_witness :
    ((hwEnv (fun _ => 0x80)).sim = false ∧ 5 < U32) ∧
    ∃ w', qnna_wait_for_completion (hwEnv (fun _ => 0x80)) 5 (0 + 1 + 5)
          (counterWorld (2 ^ 64 - 2)) = some (false, w') ∧
      statusReads w'.trace = statusReads (counterWorld (2 ^ 64 - 2)).trace + (5 - 1) ∧
      delayCalls w'.trace = delayCalls (counterWorld (2 ^ 64 - 2)).trace + (5 - 1) :=
  ⟨⟨rfl, by decide⟩,
    (c15_step_count_budget (hwEnv (fun _ => 0x80)) 5 0 (counterWorld (2 ^ 64 - 2))
      rfl (by decide)).2
      (fun i => by
        rw [status_seq_stream (hwEnv (fun _ => 0x80)) (fun _ => 0x80) _ i rfl]
        exact ⟨by decide, by decide⟩)⟩

/-- Claim C16: only DONE and ERROR decide the outcome.  Two environments with
the same build and clock whose devices agree on bit 8 and bit 15 of every word
give the same result of qnna_wait_for_completion in the same final state, hence
after the same number of STATUS reads and delays; and a first read with DONE
and BUSY set and ERROR clear yields true. -/
theorem c16_only_done_and_error_decide (env1 env2 : Env) (T fuel : Nat) (w : World)
    (hsim : env1.sim = env2.sim) (hclk : env1.clock_gettime = env2.clock_gettime)
    (hbits : ∀ tr v, (env1.device tr v).testBit 8 = (env2.device tr v).testBit 8 ∧
      (env1.device tr v).testBit 15 = (env2.device tr v).testBit 15) :
    qnna_wait_for_completion env1 T fuel w = qnna_wait_for_completion env2 T fuel w ∧
    (qnna_wait_for_completion env1 T fuel w).map
        (fun r => (r.1, statusReads r.2.trace, delayCalls r.2.trace))
      = (qnna_wait_for_completion env2 T fuel w).map
        (fun r => (r.1, statusReads r.2.trace, delayCalls r.2.trace)) ∧
    (loop_entered env1 T w → (first_status env1 w).testBit 8 = true →
      (first_status env1 w).testBit 7 = true → (first_status env1 w).testBit 15 = false →
      (qnna_wait_for_completion env1 T (fuel + 1) w).map Prod.fst = some true) := by
  have heq := wait_congr env1 env2 hsim hclk hbits T fuel w
  refine ⟨heq, by rw [heq], ?_⟩
  intro hent hd _ _
  have hrun : qnna_wait_for_completion env1 T (fuel + 1) w
      = some (true, after_read env1 (loop_entry env1 w)) :=
    wait_loop_done env1 (start_of env1 w) T fuel (loop_entry env1 w) hent hd
  rw [hrun]
  rfl

/-- Claim C16, instance: the words 0x180 (DONE and BUSY) and 0x100 (DONE alone)
give the same run, and it completes. -/
theorem c16_only_done_and_error_decide_witness :
    qnna_wait_for_completion (simEnv 0 (fun _ => 0x180)) 500 (0 + 1) (constWorld 0)
      = qnna_wait_for_completion (simEnv 0 (fun _ => 0x100)) 500 (0 + 1) (constWorld 0) ∧
    (qnna_wait_for_completion (simEnv 0 (fun _ => 0x180)) 500 (0 + 1) (constWorld 0)).map Prod.fst
      = some true :=
  ⟨(c16_only_done_and_error_decide (simEnv 0 (fun _ => 0x180)) (simEnv 0 (fun _ => 0x100))
      500 (0 + 1) (constWorld 0) rfl rfl
      (fun _ _ => ⟨show Nat.testBit 0x180 8 = Nat.testBit 0x100 8 by decide,
        show Nat.testBit 0x180 15 = Nat.testBit 0x100 15 by decide⟩)).1,
   (c16_only_done_and_error_decide (simEnv 0 (fun _ => 0x180)) (simEnv 0 (fun _ => 0x100))
      500 0 (constWorld 0) rfl rfl
      (fun _ _ => ⟨show Nat.testBit 0x180 8 = Nat.testBit 0x100 8 by decide,
        show Nat.testBit 0x180 15 = Nat.testBit 0x100 15 by decide⟩)).2.2
      (by decide) (by decide) (by decide) (by decide)⟩

/-! ## The test scenarios in the SIM_MODE build -/

/-- Claim C18: a zero timeout never observes the device.  For every
environment and state, qnna_wait_for_completion(0) returns false after its two
clock readings, with no STATUS read, no other register access and no delay. -/
theorem c18_zero_timeout_never_observes (env : Env) (fuel : Nat) (w : World) :
    qnna_wait_for_completion env 0 (fuel + 1) w
      = some (false, (get_time_ms env (loop_entry env w)).2) ∧
    (get_time_ms env (loop_entry env w)).2.trace
      = w.trace ++ [Event.get_time, Event.get_time] ∧
    statusReads (get_time_ms env (loop_entry env w)).2.trace = statusReads w.trace ∧
    delayCalls (get_time_ms env (loop_entry env w)).2.trace = delayCalls w.trace ∧
    accessOffsets (get_time_ms env (loop_entry env w)).2.trace = accessOffsets w.trace ∧
    (get_time_ms env (loop_entry env w)).2.regs = w.regs := by
  have htr : (get_time_ms env (loop_entry env w)).2.trace
      = w.trace ++ [Event.get_time, Event.get_time] := by
    simp [get_time_ms_trace, loop_entry_trace]
  refine ⟨?_, htr, ?_, ?_, ?_, ?_⟩
  · exact wait_loop_timeout env (start_of env w) 0 fuel (loop_entry env w) (Nat.not_lt_zero _)
  · rw [htr, statusReads_append]; rfl
  · rw [htr, delayCalls_append]; rfl
  · rw [htr, accessOffsets_append]; simp [accessOffsets]
  · rw [get_time_ms_regs, loop_entry_regs]

theorem get_time_ms_lt (env : Env) (w : World) : (get_time_ms env w).1 < U64 := by
  unfold get_time_ms
  split <;> exact Nat.mod_lt _ (by decide)

/-- Claim C19: the loop guard refines the specified deadline test.  For a
64-bit start time s, a 64-bit reading t with t >= s and a timeout T with
s + T < 2^64 (every 32-bit T that keeps the deadline below 2^64 included), the
guard of the code, (t - s) mod 2^64 < T, holds exactly when t < deadline holds
for deadline = s + T; so does the guard evaluated in any state whose clock
reading is at least s. -/
theorem c19_guard_refines_deadline (s t T : Nat) (hs : s < U64) (ht : t < U64) (hst : s ≤ t)
    (hsum : s + T < U64) :
    (elapsed_u64 t s < T ↔ spec_loop_guard t (spec_deadline s T)) ∧
    (∀ (env : Env) (w : World), s ≤ (get_time_ms env w).1 →
      (guard_at env s T w ↔ spec_loop_guard (get_time_ms env w).1 (spec_deadline s T))) := by
  have h64 : U64 = 18446744073709551616 := by decide
  constructor
  · unfold elapsed_u64 spec_loop_guard spec_deadline
    rw [h64] at hs ht ⊢
    omega
  · intro env w hge
    have hlt := get_time_ms_lt env w
    unfold guard_at elapsed_u64 spec_loop_guard spec_deadline
    rw [h64] at hs hlt ⊢
    omega

/-- Claim C19, instance: start 600 ms below 2^64, reading 200 ms below 2^64,
timeout 500. -/
theorem c19_guard_refines_deadline_witness :
    (2 ^ 64 - 600 < U64 ∧ 2 ^ 64 - 200 < U64 ∧ 2 ^ 64 - 600 ≤ 2 ^ 64 - 200 ∧
      2 ^ 64 - 600 + 500 < U64) ∧
    (elapsed_u64 (2 ^ 64 - 200) (2 ^ 64 - 600) < 500 ↔
      spec_loop_guard (2 ^ 64 - 200) (spec_deadline (2 ^ 64 - 600) 500)) :=
  ⟨by decide,
    (c19_guard_refines_deadline (2 ^ 64 - 600) (2 ^ 64 - 200) 500
      (by decide) (by decide) (by decide) (by decide)).1⟩

end QNNA
